import Mathlib

/-!
Verification development for the Box Wealth Management document pipeline.

The Python source is shallowly embedded:
* loosely-typed JSON data (provider responses, metadata mappings) becomes the
  inductive `Value` type below;
* Python dicts built from parsed JSON become association lists with string
  keys (all JSON object keys are strings, and in-scope callers build dicts
  with distinct keys);
* functions that may raise are embedded with `Option`/`Except` results, where
  `none`/`error` marks an exception caught at the caller boundary;
* remote calls (Box API) become explicit behaviour parameters so theorems
  quantify over every possible remote outcome.
-/

namespace BoxWealth

/-- JSON-like value, the shallow embedding of the loosely-typed data that the
Python services pass around (provider responses, metadata mappings).  Numbers
are modelled as rationals (Python int/float); object keys are strings, which
is faithful for every JSON-parsed dict in scope. -/
inductive Value where
  | vNull : Value
  | vBool : Bool → Value
  | vNum : ℚ → Value
  | vStr : String → Value
  | vList : List Value → Value
  | vObj : List (String × Value) → Value

open Value

mutual

/-- Decidable equality for `Value` (the nested lists prevent `deriving`). -/
def Value.decEq : (a b : Value) → Decidable (a = b)
  | vNull, vNull => isTrue rfl
  | vBool x, vBool y =>
    if h : x = y then isTrue (h ▸ rfl)
    else isFalse fun hh => h (Value.vBool.inj hh)
  | vNum x, vNum y =>
    if h : x = y then isTrue (h ▸ rfl)
    else isFalse fun hh => h (Value.vNum.inj hh)
  | vStr x, vStr y =>
    if h : x = y then isTrue (h ▸ rfl)
    else isFalse fun hh => h (Value.vStr.inj hh)
  | vList xs, vList ys =>
    match Value.decEqList xs ys with
    | isTrue h => isTrue (h ▸ rfl)
    | isFalse h => isFalse fun hh => h (Value.vList.inj hh)
  | vObj xs, vObj ys =>
    match Value.decEqObj xs ys with
    | isTrue h => isTrue (h ▸ rfl)
    | isFalse h => isFalse fun hh => h (Value.vObj.inj hh)
  | vNull, vBool _ => isFalse fun h => Value.noConfusion h
  | vNull, vNum _ => isFalse fun h => Value.noConfusion h
  | vNull, vStr _ => isFalse fun h => Value.noConfusion h
  | vNull, vList _ => isFalse fun h => Value.noConfusion h
  | vNull, vObj _ => isFalse fun h => Value.noConfusion h
  | vBool _, vNull => isFalse fun h => Value.noConfusion h
  | vBool _, vNum _ => isFalse fun h => Value.noConfusion h
  | vBool _, vStr _ => isFalse fun h => Value.noConfusion h
  | vBool _, vList _ => isFalse fun h => Value.noConfusion h
  | vBool _, vObj _ => isFalse fun h => Value.noConfusion h
  | vNum _, vNull => isFalse fun h => Value.noConfusion h
  | vNum _, vBool _ => isFalse fun h => Value.noConfusion h
  | vNum _, vStr _ => isFalse fun h => Value.noConfusion h
  | vNum _, vList _ => isFalse fun h => Value.noConfusion h
  | vNum _, vObj _ => isFalse fun h => Value.noConfusion h
  | vStr _, vNull => isFalse fun h => Value.noConfusion h
  | vStr _, vBool _ => isFalse fun h => Value.noConfusion h
  | vStr _, vNum _ => isFalse fun h => Value.noConfusion h
  | vStr _, vList _ => isFalse fun h => Value.noConfusion h
  | vStr _, vObj _ => isFalse fun h => Value.noConfusion h
  | vList _, vNull => isFalse fun h => Value.noConfusion h
  | vList _, vBool _ => isFalse fun h => Value.noConfusion h
  | vList _, vNum _ => isFalse fun h => Value.noConfusion h
  | vList _, vStr _ => isFalse fun h => Value.noConfusion h
  | vList _, vObj _ => isFalse fun h => Value.noConfusion h
  | vObj _, vNull => isFalse fun h => Value.noConfusion h
  | vObj _, vBool _ => isFalse fun h => Value.noConfusion h
  | vObj _, vNum _ => isFalse fun h => Value.noConfusion h
  | vObj _, vStr _ => isFalse fun h => Value.noConfusion h
  | vObj _, vList _ => isFalse fun h => Value.noConfusion h

/-- Decidable equality for lists of values. -/
def Value.decEqList : (xs ys : List Value) → Decidable (xs = ys)
  | [], [] => isTrue rfl
  | [], _ :: _ => isFalse fun h => List.noConfusion h
  | _ :: _, [] => isFalse fun h => List.noConfusion h
  | x :: xs, y :: ys =>
    match Value.decEq x y with
    | isFalse h => isFalse fun hh => h (List.cons.inj hh).1
    | isTrue h1 =>
      match Value.decEqList xs ys with
      | isTrue h2 => isTrue (h1 ▸ h2 ▸ rfl)
      | isFalse h => isFalse fun hh => h (List.cons.inj hh).2

/-- Decidable equality for association lists of values. -/
def Value.decEqObj : (xs ys : List (String × Value)) → Decidable (xs = ys)
  | [], [] => isTrue rfl
  | [], _ :: _ => isFalse fun h => List.noConfusion h
  | _ :: _, [] => isFalse fun h => List.noConfusion h
  | (k, v) :: xs, (k', v') :: ys =>
    if hk : k = k' then
      match Value.decEq v v' with
      | isFalse h => isFalse fun hh => h (congrArg (fun p => p.2) (List.cons.inj hh).1)
      | isTrue hv =>
        match Value.decEqObj xs ys with
        | isTrue h2 => isTrue (hk ▸ hv ▸ h2 ▸ rfl)
        | isFalse h => isFalse fun hh => h (List.cons.inj hh).2
    else isFalse fun hh => hk (congrArg (fun p => p.1) (List.cons.inj hh).1)

end

instance : DecidableEq Value := Value.decEq

/-- Python `d[k]` lookup support: first binding for a key in an association
list modelling a dict (dict keys are unique, so first = only). -/
def pyLookup : List (String × Value) → String → Option Value
  | [], _ => none
  | (k', v) :: rest, k => if k' = k then some v else pyLookup rest k

/-- Python `k in d` on a dict. -/
def pyHasKey (kvs : List (String × Value)) (k : String) : Bool :=
  (pyLookup kvs k).isSome

/-- Python `d.get(k, default)`. -/
def pyGet (kvs : List (String × Value)) (k : String) (dflt : Value) : Value :=
  (pyLookup kvs k).getD dflt

/-- Python truthiness of a value (`if not component`, `if extracted_data` …). -/
def pyTruthy : Value → Bool
  | vNull => false
  | vBool b => b
  | vNum q => q != 0
  | vStr s => s != ""
  | vList xs => !xs.isEmpty
  | vObj kvs => !kvs.isEmpty

mutual

/-- Fuel-driven decimal digits of a natural number, most significant first
(fuel `n + 1` always suffices). -/
def natDigitsAux : Nat → Nat → List Char
  | 0, _ => []
  | fuel + 1, n =>
    if n < 10 then [Char.ofNat (48 + n)]
    else natDigitsAux fuel (n / 10) ++ [Char.ofNat (48 + n % 10)]

/-- Decimal digits of a natural number. -/
def natDigits (n : Nat) : List Char := natDigitsAux (n + 1) n

/-- Rendering of a rational, standing for Python's int/float number
formatting (the int/float distinction is abstracted). -/
def pyNumRepr (q : ℚ) : String :=
  String.mk ((if q < 0 then ['-'] else []) ++ natDigits q.num.natAbs ++
    (if q.den = 1 then [] else '/' :: natDigits q.den))

/-- Python `str()` on an embedded value.  The rendering of containers and the
int/float distinction of numbers is abstracted (elements are rendered with
`str` rather than `repr`, and a rational numeral stands for the Python number
format); every use in scope relies only on `str` being deterministic, the
identity on strings, non-empty away from the empty string, and on container
renderings starting with a bracket (hence never parsing as a float). -/
def pyStr : Value → String
  | vNull => "None"
  | vBool true => "True"
  | vBool false => "False"
  | vNum q => pyNumRepr q
  | vStr s => s
  | vList xs => "[" ++ pyStrList xs ++ "]"
  | vObj kvs => "\x7b" ++ pyStrObj kvs ++ "\x7d"

/-- Comma-joined rendering of list elements. -/
def pyStrList : List Value → String
  | [] => ""
  | [x] => pyStr x
  | x :: rest => pyStr x ++ ", " ++ pyStrList rest

/-- Comma-joined rendering of object entries. -/
def pyStrObj : List (String × Value) → String
  | [] => ""
  | [(k, v)] => k ++ ": " ++ pyStr v
  | (k, v) :: rest => k ++ ": " ++ pyStr v ++ ", " ++ pyStrObj rest

end

/-! ### Python-style primitive coercions -/

/-- Whitespace characters recognised by Python's `str.strip` / `float`
(ASCII subset, which covers every string in scope). -/
def wsChar (c : Char) : Bool :=
  c == ' ' || c == '\t' || c == '\n' || c == '\r' || c == Char.ofNat 11 || c == Char.ofNat 12

/-- Numeric value of an ASCII digit character. -/
def digitVal (c : Char) : Nat := c.toNat - 48

/-- Base-ten value of a digit string. -/
def digitsToNat (cs : List Char) : Nat := cs.foldl (fun a c => 10 * a + digitVal c) 0

/-- Drop trailing whitespace (right-hand side of Python's strip). -/
def dropTrailingWs : List Char → List Char :=
  List.foldr (fun c acc => if acc.isEmpty && wsChar c then [] else c :: acc) []

/-- Python `float(s)` on a string: strip whitespace, optional sign, decimal
digits with optional fraction and exponent.  `inf`/`nan` literals and digit
underscores are not modelled (no caller in scope feeds them). -/
def parseFloatChars (cs0 : List Char) : Option ℚ :=
  let cs1 := dropTrailingWs (cs0.dropWhile wsChar)
  let neg : Bool := match cs1 with
    | c :: _ => c == '-'
    | [] => false
  let cs2 : List Char := match cs1 with
    | c :: rest => if c == '-' || c == '+' then rest else c :: rest
    | [] => []
  let ip := cs2.takeWhile Char.isDigit
  let cs3 := cs2.dropWhile Char.isDigit
  let fp : List Char := match cs3 with
    | c :: rest => if c == '.' then rest.takeWhile Char.isDigit else []
    | [] => []
  let cs4 : List Char := match cs3 with
    | c :: rest => if c == '.' then rest.dropWhile Char.isDigit else c :: rest
    | [] => []
  if ip.isEmpty && fp.isEmpty then none
  else
    let mantissa : ℚ := (digitsToNat ip : ℚ) + (digitsToNat fp : ℚ) / (10 : ℚ) ^ fp.length
    let signed : ℚ := if neg then -mantissa else mantissa
    match cs4 with
    | [] => some signed
    | e :: rest =>
      if e == 'e' || e == 'E' then
        let eneg : Bool := match rest with
          | c :: _ => c == '-'
          | [] => false
        let rest1 : List Char := match rest with
          | c :: rr => if c == '-' || c == '+' then rr else c :: rr
          | [] => []
        let ed := rest1.takeWhile Char.isDigit
        let rest2 := rest1.dropWhile Char.isDigit
        if ed.isEmpty || !rest2.isEmpty then none
        else
          some (signed * (10 : ℚ) ^
            (if eneg then -(digitsToNat ed : ℤ) else (digitsToNat ed : ℤ)))
      else none

/-- Python `float` applied to the characters of a string. -/
def parseFloatQ (s : String) : Option ℚ := parseFloatChars s.toList

/-! ### Dates accepted by `strptime(value, percent-Y-m-d)` -/

/-- Gregorian leap-year rule used by `datetime`. -/
def isLeapYear (y : Nat) : Bool :=
  (y % 4 == 0 && y % 100 != 0) || y % 400 == 0

/-- Day count of a month as validated by `datetime.strptime`. -/
def daysInMonth (y m : Nat) : Nat :=
  if m = 2 then (if isLeapYear y then 29 else 28)
  else if m = 4 ∨ m = 6 ∨ m = 9 ∨ m = 11 then 30
  else 31

/-- Whether a ten-character string parses under `strptime` with the
`YYYY-MM-DD` format: four/two/two zero-padded digit groups separated by
dashes, month 1–12, day within the month, year at least `datetime.MINYEAR`. -/
def strptimeYmdOk (cs : List Char) : Bool :=
  match cs with
  | [y1, y2, y3, y4, h1, m1, m2, h2, d1, d2] =>
    y1.isDigit && y2.isDigit && y3.isDigit && y4.isDigit && h1 == '-' &&
    m1.isDigit && m2.isDigit && h2 == '-' && d1.isDigit && d2.isDigit &&
    (let y := digitsToNat [y1, y2, y3, y4]
     let m := digitsToNat [m1, m2]
     let d := digitsToNat [d1, d2]
     decide (1 ≤ y) && decide (1 ≤ m) && decide (m ≤ 12) && decide (1 ≤ d) &&
       decide (d ≤ daysInMonth y m))
  | _ => false

/-! ### MetadataSanitizer: `_sanitize_metadata`
(box_metadata_application.py lines 511–565) -/

/-- Embeds `field_types.get(key, "string")` (line 528). -/
def fieldTypeFor (field_types : List (String × String)) (k : String) : String :=
  match field_types.lookup k with
  | some t => t
  | none => "string"

/-- The enum options accepted for `address_validation.validation_status`
(line 548). -/
def validStatuses : List Value :=
  [vStr "Match", vStr "Mismatch", vStr "Partial Match", vStr "Not Validated"]

/-- Python `float(value)` with the `str(value)` fallback of the sanitiser's
number branch (lines 554–559): numbers pass through, booleans coerce to 0/1,
strings are parsed or kept verbatim, containers fall back to their `str`. -/
def pyFloatCoerce : Value → Value
  | vNum q => vNum q
  | vBool b => vNum (if b then 1 else 0)
  | vStr s =>
    match parseFloatQ s with
    | some q => vNum q
    | none => vStr s
  | v => vStr (pyStr v)

/-- The date branch of `_sanitize_metadata` (lines 531–543): a string of
shape `YYYY-MM-DD` accepted by `strptime` is re-rendered with the fixed
midnight suffix (`strftime` reproduces the zero-padded input digits); every
other value is dropped. -/
def sanitizeDateValue : Value → Option Value
  | vStr s =>
    if s.toList.length = 10 ∧ s.toList.getD 4 ' ' = '-' ∧ s.toList.getD 7 ' ' = '-' then
      if strptimeYmdOk s.toList then some (vStr (s ++ "T00:00:00Z")) else none
    else none
  | _ => none

/-- One loop iteration of `_sanitize_metadata` (lines 522–563): `none` means
the field is dropped, `some v` that `sanitized[key] = v` is recorded. -/
def sanitizeField (field_types : List (String × String)) (template_key key : String)
    (value : Value) : Option Value :=
  if value = vNull ∨ value = vStr "" then none
  else if fieldTypeFor field_types key = "date" then sanitizeDateValue value
  else if fieldTypeFor field_types key = "enum" then
    if template_key = "address_validation" ∧ key = "validation_status" then
      some (if value ∈ validStatuses then value else vStr "Not Validated")
    else some (vStr (pyStr value))
  else if fieldTypeFor field_types key = "float" ∨ fieldTypeFor field_types key = "number" ∨
      fieldTypeFor field_types key = "int" then
    some (pyFloatCoerce value)
  else some (vStr (pyStr value))

/-- Shallow embedding of `BoxMetadataApplicationService._sanitize_metadata`
(lines 511–565).  The metadata dict is modelled as an association list;
callers pass dicts, so keys are distinct and insertion keeps iteration
order. -/
def sanitize_metadata (metadata : List (String × Value))
    (field_types : List (String × String)) (template_key : String) :
    List (String × Value) :=
  match metadata with
  | [] => []
  | (key, value) :: rest =>
    match sanitizeField field_types template_key key value with
    | none => sanitize_metadata rest field_types template_key
    | some v => (key, v) :: sanitize_metadata rest field_types template_key

/-! ### AddressComparisonService (address_comparison_service.py)

Address component strings are handled as character lists so that the
normalisation and similarity algorithms can be stated char by char. -/

/-- Whether `pat` is a prefix of `s`. -/
def startsWithChars : List Char → List Char → Bool
  | [], _ => true
  | _ :: _, [] => false
  | p :: ps, c :: cs => p == c && startsWithChars ps cs

/-- Whether `pat` occurs as a contiguous substring (Python `pat in s`). -/
def containsSubChars : List Char → List Char → Bool
  | [], pat => pat.isEmpty
  | c :: rest, pat => startsWithChars pat (c :: rest) || containsSubChars rest pat

/-- Fuel-driven core of Python `str.replace`: scan left to right, replacing
non-overlapping occurrences.  One character is consumed per step, so fuel
equal to the input length suffices for the non-empty patterns in scope. -/
def replaceSubAux (pat rep : List Char) : Nat → List Char → List Char
  | 0, s => s
  | _ + 1, [] => []
  | fuel + 1, c :: rest =>
    if startsWithChars pat (c :: rest) then
      rep ++ replaceSubAux pat rep fuel (List.drop pat.length (c :: rest))
    else c :: replaceSubAux pat rep fuel rest

/-- Python `s.replace(pat, rep)` for a non-empty pattern. -/
def replaceSub (pat rep s : List Char) : List Char := replaceSubAux pat rep s.length s

/-- Python `s.strip()`. -/
def stripChars (s : List Char) : List Char := dropTrailingWs (s.dropWhile wsChar)

/-- Fuel-driven core of Python `s.split()` (split on whitespace runs,
discarding empties).  Fuel equal to the length suffices. -/
def splitWsAux : Nat → List Char → List (List Char)
  | 0, _ => []
  | fuel + 1, s =>
    let s1 := s.dropWhile wsChar
    match s1 with
    | [] => []
    | _ =>
      let word := s1.takeWhile (fun c => !wsChar c)
      let rest := s1.dropWhile (fun c => !wsChar c)
      word :: splitWsAux fuel rest

/-- Python `s.split()` with no separator argument. -/
def splitWs (s : List Char) : List (List Char) := splitWsAux s.length s

/-- Python `' '.join(words)`. -/
def joinSpace : List (List Char) → List Char
  | [] => []
  | [w] => w
  | w :: rest => w ++ ' ' :: joinSpace rest

/-- Embeds `AddressComparisonService.normalize_address_component`
(lines 19–37): falsy components become the empty string; otherwise
lowercase, strip, drop commas and periods, rewrite unit indicators, and
collapse whitespace.  `Char.toLower` models Python `str.lower` (identical
on the ASCII strings in scope). -/
def normalize_address_component (component : Value) : List Char :=
  if !pyTruthy component then []
  else
    let n0 := stripChars ((pyStr component).toList.map Char.toLower)
    let n1 := replaceSub [','] [] n0
    let n2 := replaceSub ['.'] [] n1
    let n3 := replaceSub ['#'] "apt ".toList n2
    let n4 := replaceSub "apartment".toList "apt".toList n3
    let n5 := replaceSub "unit".toList "apt".toList n4
    let n6 := replaceSub "suite".toList "ste".toList n5
    joinSpace (splitWs n6)

/-- Best-match bookkeeping of difflib's `find_longest_match`. -/
structure FLMState where
  besti : Nat
  bestj : Nat
  bestsize : Nat
  deriving DecidableEq

/-- One row (fixed `i`) of the `find_longest_match` inner loop: for each `j`
in `[blo, bhi)` with `b[j] = a[i]`, the longest common run ending at `(i, j)`
is `j2len[j-1] + 1` over the previous row, and a strictly longer run updates
the best match (difflib has no junk in scope, and the strings stay far below
the 200-element autojunk threshold). -/
def flmRow (a b : List Char) (i blo bhi : Nat) (j2len : Nat → Nat) (st : FLMState) :
    (Nat → Nat) × FLMState :=
  (List.range (bhi - blo)).foldl
    (fun acc off =>
      let j := blo + off
      match a.get? i, b.get? j with
      | some x, some y =>
        if x = y then
          let k := (if j = 0 then 0 else j2len (j - 1)) + 1
          let newRow := fun t => if t = j then k else acc.1 t
          let st' := if k > acc.2.bestsize then ⟨i + 1 - k, j + 1 - k, k⟩ else acc.2
          (newRow, st')
        else acc
      | _, _ => acc)
    ((fun _ => 0), st)

/-- difflib `SequenceMatcher.find_longest_match` over the window
`a[alo:ahi]`, `b[blo:bhi]` (the junk-extension loops are no-ops without
junk). -/
def find_longest_match (a b : List Char) (alo ahi blo bhi : Nat) : FLMState :=
  ((List.range (ahi - alo)).foldl
    (fun acc off => flmRow a b (alo + off) blo bhi acc.1 acc.2)
    ((fun _ => 0), ⟨alo, blo, 0⟩)).2

/-- Total size of the matching blocks collected by
`SequenceMatcher.get_matching_blocks`: recurse on both sides of the longest
match.  Each recursive window is strictly smaller, so fuel bounded by the
window sizes suffices. -/
def matchedTotalAux (a b : List Char) : Nat → Nat → Nat → Nat → Nat → Nat
  | 0, _, _, _, _ => 0
  | fuel + 1, alo, ahi, blo, bhi =>
    let st := find_longest_match a b alo ahi blo bhi
    if st.bestsize = 0 then 0
    else
      matchedTotalAux a b fuel alo st.besti blo st.bestj + st.bestsize +
        matchedTotalAux a b fuel (st.besti + st.bestsize) ahi (st.bestj + st.bestsize) bhi

/-- Exact value of the float ratio `2.0 * M / T` computed by
`SequenceMatcher.ratio`, kept as an explicit numerator/denominator pair of
naturals so that concrete runs reduce inside the kernel (IEEE rounding of
the ratio is abstracted to exact rational arithmetic). -/
structure SimRatio where
  num : Nat
  den : Nat
  deriving DecidableEq

/-- The rational value of a ratio, for spec-level statements. -/
def SimRatio.toQ (r : SimRatio) : ℚ := (r.num : ℚ) / (r.den : ℚ)

/-- The comparison `ratio >= num/den` by cross-multiplication. -/
def SimRatio.atLeast (r : SimRatio) (num den : Nat) : Bool :=
  decide (den * r.num ≥ num * r.den)

/-- `SequenceMatcher(None, a, b).ratio()` as an exact ratio; callers
guarantee both inputs non-empty, so the denominator is positive. -/
def sm_ratio (a b : List Char) : SimRatio :=
  let total := a.length + b.length
  ⟨2 * matchedTotalAux a b (total + 1) 0 a.length 0 b.length, total⟩

/-- Embeds `AddressComparisonService.calculate_similarity` (lines 39–47):
1.0 for two empties, 0.0 when exactly one side is empty, otherwise the
`SequenceMatcher` ratio of the lowercased strings. -/
def calculate_similarity (s1 s2 : List Char) : SimRatio :=
  if s1.isEmpty && s2.isEmpty then ⟨1, 1⟩
  else if s1.isEmpty || s2.isEmpty then ⟨0, 1⟩
  else sm_ratio (s1.map Char.toLower) (s2.map Char.toLower)

/-- One entry of the `comparisons` dict built by
`compare_address_components`; `matched` embeds the source key `match`
(a reserved word in Lean), defined there as `similarity >= 0.8`. -/
structure ComponentComparison where
  client_value : List Char
  extracted_value : List Char
  similarity : SimRatio
  matched : Bool
  deriving DecidableEq

/-- The client address snapshot held by `ClientOnboardingInfo` (models.py);
Django `CharField`s are strings, blank when unset. -/
structure ClientOnboardingInfo where
  street_address : String
  city : String
  state_province : String
  postal_code : String
  deriving DecidableEq

/-- The `full_address` property of `ClientOnboardingInfo` (models.py
lines 54–66). -/
def ClientOnboardingInfo.full_address (ci : ClientOnboardingInfo) : String :=
  String.intercalate ", "
    (([ci.street_address, ci.city, ci.state_province, ci.postal_code]).filter
      (fun s => s != ""))

/-- The four component keys compared by the service, in source order. -/
def addressComponentKeys : List String :=
  ["street_address", "city", "state_province", "postal_code"]

/-- The client-side component for a key. -/
def clientComponent (ci : ClientOnboardingInfo) : String → String := fun k =>
  if k = "street_address" then ci.street_address
  else if k = "city" then ci.city
  else if k = "state_province" then ci.state_province
  else ci.postal_code

/-- Embeds `AddressComparisonService.compare_address_components`
(lines 49–83): normalise both sides of each of the four components, compute
the similarity, and mark a match at the 0.8 threshold. -/
def compare_address_components (ci : ClientOnboardingInfo)
    (extracted : List (String × Value)) : List (String × ComponentComparison) :=
  addressComponentKeys.map (fun k =>
    let cv := normalize_address_component (vStr (clientComponent ci k))
    let ev := normalize_address_component (pyGet extracted k (vStr ""))
    let sim := calculate_similarity cv ev
    (k, ⟨cv, ev, sim, sim.atLeast 4 5⟩))

/-- Embeds `AddressComparisonService.determine_mismatch_type` (lines 85–96):
`none` when every component matches, full mismatch when none does, partial
otherwise. -/
def determine_mismatch_type (comparisons : List (String × ComponentComparison)) :
    Option String :=
  let matching := (comparisons.filter (fun c => c.2.matched)).length
  let total := comparisons.length
  if matching = total then none
  else if matching = 0 then some "full_mismatch"
  else some "partial_mismatch"

/-- A row of the `AddressMismatch` table (models.py lines 69–104); the
`client` foreign key is modelled by a user identifier, and the
`unique_together ['client', 'file_id']` constraint becomes the invariant
proved below. -/
structure AddressMismatch where
  client : String
  file_id : String
  file_name : String
  client_street : String
  client_city : String
  client_state : String
  client_postal_code : String
  client_full_address : String
  extracted_street : Value
  extracted_city : Value
  extracted_state : Value
  extracted_postal_code : Value
  extracted_full_address : Value
  mismatch_type : String
  resolved : Bool
  deriving DecidableEq

/-- The record written by the `update_or_create` defaults
(address_comparison_service.py lines 157–175). -/
def mkMismatch (user fid fname : String) (ci : ClientOnboardingInfo)
    (extracted : List (String × Value)) (mt : String) : AddressMismatch :=
  { client := user
    file_id := fid
    file_name := fname
    client_street := ci.street_address
    client_city := ci.city
    client_state := ci.state_province
    client_postal_code := ci.postal_code
    client_full_address := ci.full_address
    extracted_street := pyGet extracted "street_address" (vStr "")
    extracted_city := pyGet extracted "city" (vStr "")
    extracted_state := pyGet extracted "state_province" (vStr "")
    extracted_postal_code := pyGet extracted "postal_code" (vStr "")
    extracted_full_address := pyGet extracted "full_address" (vStr "")
    mismatch_type := mt
    resolved := false }

/-- Whether a row carries the given `(client, file_id)` key. -/
def keyMatches (user fid : String) (r : AddressMismatch) : Bool :=
  r.client == user && r.file_id == fid

/-- Django `update_or_create(client=…, file_id=…, defaults=…)` on the list
model of the table: overwrite the existing row for the key, or append a new
one; the second component is the `created` flag. -/
def mismatchUpdateOrCreate (db : List AddressMismatch) (user fid : String)
    (rec : AddressMismatch) : List AddressMismatch × Bool :=
  if db.any (keyMatches user fid) then
    (db.map (fun r => if keyMatches user fid r then rec else r), false)
  else (db ++ [rec], true)

/-- The result dict of `compare_addresses` (fields relevant to the claims). -/
structure CompareResult where
  success : Bool
  message : String
  has_mismatch : Bool
  mismatch_type : Option String
  mismatch_created : Bool
  deriving DecidableEq

/-- Embeds `AddressComparisonService.compare_addresses` (lines 98–195) as a
transition on the mismatch table: `client_info` is the outcome of the
`ClientOnboardingInfo` lookup (`none` models `DoesNotExist`). -/
def compare_addresses (client_info : Option ClientOnboardingInfo)
    (extracted : List (String × Value)) (user fid fname : String)
    (db : List AddressMismatch) : CompareResult × List AddressMismatch :=
  match client_info with
  | none =>
    ({ success := false, message := "No client address information found for comparison",
       has_mismatch := false, mismatch_type := none, mismatch_created := false }, db)
  | some ci =>
    if !(ci.street_address != "" || ci.city != "" || ci.state_province != "" ||
        ci.postal_code != "") then
      ({ success := false, message := "No client address information available for comparison",
         has_mismatch := false, mismatch_type := none, mismatch_created := false }, db)
    else
      match determine_mismatch_type (compare_address_components ci extracted) with
      | some m =>
        ({ success := true, message := "", has_mismatch := true, mismatch_type := some m,
           mismatch_created :=
             (mismatchUpdateOrCreate db user fid (mkMismatch user fid fname ci extracted m)).2 },
          (mismatchUpdateOrCreate db user fid (mkMismatch user fid fname ci extracted m)).1)
      | none =>
        ({ success := true, message := "", has_mismatch := false, mismatch_type := none,
           mismatch_created := false }, db.filter (fun r => !keyMatches user fid r))

/-- One `compare_addresses` call for a fixed `(client, file_id)` pair:
the onboarding-info lookup outcome, the extracted address, and the file
name. -/
structure CompareCall where
  client_info : Option ClientOnboardingInfo
  extracted : List (String × Value)
  fname : String

/-- Fold a sequence of `compare_addresses` calls for one `(client, file_id)`
pair over the mismatch table. -/
def runCompares (user fid : String) (calls : List CompareCall)
    (db : List AddressMismatch) : List AddressMismatch :=
  match calls with
  | [] => db
  | c :: rest =>
    runCompares user fid rest (compare_addresses c.client_info c.extracted user fid c.fname db).2

/-- Number of rows for a `(client, file_id)` key. -/
def keyCount (db : List AddressMismatch) (user fid : String) : Nat :=
  (db.filter (keyMatches user fid)).length

/-! ### MetadataApplier: `_apply_metadata`
(box_metadata_application.py lines 567–654)

The two remote requests (POST create, PUT update) are parameters describing
every outcome the Box client can produce; the schema fetched by
`_get_template_field_types` is likewise a parameter (that helper returns a
possibly-empty dict, swallowing its own errors). -/

/-- Outcome of the POST create request: an HTTP response with a status code,
JSON body and raw content; a `BoxAPIException` with a status; or any other
exception. -/
inductive CreateOutcome where
  | httpResponse : Nat → Value → String → CreateOutcome
  | boxApiExc : Nat → CreateOutcome
  | exc : String → CreateOutcome
  deriving DecidableEq

/-- Outcome of the PUT update request. -/
inductive UpdateOutcome where
  | httpResponse : Nat → Value → String → UpdateOutcome
  | exc : String → UpdateOutcome
  deriving DecidableEq

/-- Result dict of the application service calls. -/
structure ApplyResult where
  success : Bool
  message : String
  data : Value
  deriving DecidableEq

/-- Which requests `_apply_metadata` issued: whether the POST create was
sent, whether control fell through to the update path (lines 615–650), and
whether the PUT itself was sent. -/
structure ApplyTrace where
  createAttempted : Bool
  updatePathEntered : Bool
  updateRequestSent : Bool
  deriving DecidableEq

/-- The JSON Patch operations built on the update path (lines 617–625):
one `add` per sanitized field whose value is neither `None` nor empty. -/
def patchOperations (sanitized : List (String × Value)) : List Value :=
  (sanitized.filter (fun kv => decide (kv.2 ≠ vNull ∧ kv.2 ≠ vStr ""))).map
    (fun kv => vObj [("op", vStr "add"), ("path", vStr ("/" ++ kv.1)), ("value", kv.2)])

/-- Embeds `BoxMetadataApplicationService._apply_metadata` (lines 567–654).
Control flow: sanitize; empty → success no-op; POST create; 2xx → created,
HTTP 409 or `BoxAPIException` 409 → update path, other HTTP error or other
`BoxAPIException` → failure without update, any other exception → update
path (lines 612–613); on the update path, build `add` patches and PUT. -/
def apply_metadata (field_types : List (String × String)) (template_key : String)
    (metadata : List (String × Value)) (create : CreateOutcome)
    (update : UpdateOutcome) : ApplyResult × ApplyTrace :=
  let sanitized := sanitize_metadata metadata field_types template_key
  if sanitized.isEmpty then
    ({ success := true, message := "No valid metadata to apply.", data := vNull },
      ⟨false, false, false⟩)
  else
    let updatePath : ApplyResult × ApplyTrace :=
      let operations := patchOperations sanitized
      if operations.isEmpty then
        ({ success := false, message := "No valid operations to perform", data := vNull },
          ⟨true, true, false⟩)
      else
        match update with
        | .httpResponse st body content =>
          if 200 ≤ st ∧ st < 300 then
            ({ success := true, message := "Metadata updated successfully", data := body },
              ⟨true, true, true⟩)
          else
            ({ success := false, message := "Failed to update metadata: " ++ content,
               data := vNull }, ⟨true, true, true⟩)
        | .exc m =>
          ({ success := false, message := "Failed to update metadata: " ++ m, data := vNull },
            ⟨true, true, true⟩)
    match create with
    | .httpResponse st body content =>
      if 200 ≤ st ∧ st < 300 then
        ({ success := true, message := "Metadata created successfully", data := body },
          ⟨true, false, false⟩)
      else if st = 409 then updatePath
      else
        ({ success := false, message := "Failed to create metadata: " ++ content,
           data := vNull }, ⟨true, false, false⟩)
    | .boxApiExc st =>
      if st = 409 then updatePath
      else
        ({ success := false, message := "Failed to create metadata: BoxAPIException",
           data := vNull }, ⟨true, false, false⟩)
    | .exc _ => updatePath

/-- A Box metadata store behaving per its documented contract
(spec §6 / Box API): POST create answers 201 when no record exists and 409
when one does; PUT update answers 200 when a record exists. -/
def box_store_create (hasRecord : Bool) : CreateOutcome :=
  if hasRecord then .httpResponse 409 vNull "Conflict" else .httpResponse 201 (vObj []) ""

/-- The PUT side of the same store. -/
def box_store_update (hasRecord : Bool) : UpdateOutcome :=
  if hasRecord then .httpResponse 200 (vObj []) "" else .httpResponse 404 vNull "Not Found"

/-- `_apply_metadata` against the conforming store, also returning whether a
record exists afterwards (a sent POST on an absent record creates it). -/
def apply_with_store (field_types : List (String × String)) (template_key : String)
    (metadata : List (String × Value)) (hasRecord : Bool) :
    ApplyResult × ApplyTrace × Bool :=
  let r := apply_metadata field_types template_key metadata
    (box_store_create hasRecord) (box_store_update hasRecord)
  (r.1, r.2, hasRecord || r.2.createAttempted)

/-! ### BoxMetadataExtractionService (box_metadata_extraction.py)

The provider call is a parameter covering every outcome: a transport-level
exception, or an HTTP response with an arbitrary status code and JSON body.
Python operations that can raise inside the handler (`in` on a number,
indexing a list with a string, `.get` on a non-dict …) are embedded with
`Option`, where `none` is the exception caught by the handler's
`except` clause. -/

/-- Whitespace skipped by the JSON decoder. -/
def jsonWsChar (c : Char) : Bool := c == ' ' || c == '\t' || c == '\n' || c == '\r'

mutual

/-- Fuel-driven `json.loads` value parser (objects, arrays, strings with
basic escapes, numbers, literals). Exotic escapes and digit underscores are
not modelled; no theorem depends on the parser's exact domain. -/
def jsonParseVal : Nat → List Char → Option (Value × List Char)
  | 0, _ => none
  | fuel + 1, cs0 =>
    let cs := cs0.dropWhile jsonWsChar
    match cs with
    | [] => none
    | c :: rest =>
      if c == '"' then
        match jsonParseStrBody fuel rest [] with
        | some (s, r) => some (vStr s, r)
        | none => none
      else if c == '[' then
        let r1 := rest.dropWhile jsonWsChar
        match r1 with
        | c2 :: r2 => if c2 == ']' then some (vList [], r2) else jsonParseArr fuel r1 []
        | [] => none
      else if c == Char.ofNat 123 then
        let r1 := rest.dropWhile jsonWsChar
        match r1 with
        | c2 :: r2 => if c2 == Char.ofNat 125 then some (vObj [], r2) else jsonParseObjBody fuel r1 []
        | [] => none
      else if startsWithChars "null".toList cs then some (vNull, cs.drop 4)
      else if startsWithChars "true".toList cs then some (vBool true, cs.drop 4)
      else if startsWithChars "false".toList cs then some (vBool false, cs.drop 5)
      else
        let numChars := cs.takeWhile
          (fun ch => ch.isDigit || ch == '-' || ch == '+' || ch == '.' || ch == 'e' || ch == 'E')
        if numChars.isEmpty then none
        else
          match parseFloatChars numChars with
          | some q => some (vNum q, cs.drop numChars.length)
          | none => none

/-- String-body parser for the JSON decoder. -/
def jsonParseStrBody : Nat → List Char → List Char → Option (String × List Char)
  | 0, _, _ => none
  | fuel + 1, cs, acc =>
    match cs with
    | [] => none
    | c :: rest =>
      if c == '"' then some (String.mk acc.reverse, rest)
      else if c == '\\' then
        match rest with
        | [] => none
        | e :: rest2 =>
          let d := if e == 'n' then '\n' else if e == 't' then '\t' else if e == 'r' then '\r' else e
          jsonParseStrBody fuel rest2 (d :: acc)
      else jsonParseStrBody fuel rest (c :: acc)

/-- Array-element parser for the JSON decoder. -/
def jsonParseArr : Nat → List Char → List Value → Option (Value × List Char)
  | 0, _, _ => none
  | fuel + 1, cs, acc =>
    match jsonParseVal fuel cs with
    | none => none
    | some (v, r) =>
      let r1 := r.dropWhile jsonWsChar
      match r1 with
      | c :: r2 =>
        if c == ',' then jsonParseArr fuel r2 (v :: acc)
        else if c == ']' then some (vList (v :: acc).reverse, r2)
        else none
      | [] => none

/-- Object-member parser for the JSON decoder. -/
def jsonParseObjBody : Nat → List Char → List (String × Value) → Option (Value × List Char)
  | 0, _, _ => none
  | fuel + 1, cs, acc =>
    let cs1 := cs.dropWhile jsonWsChar
    match cs1 with
    | [] => none
    | c :: rest =>
      if c == '"' then
        match jsonParseStrBody fuel rest [] with
        | none => none
        | some (k, r) =>
          let r1 := r.dropWhile jsonWsChar
          match r1 with
          | [] => none
          | c2 :: r2 =>
            if c2 == ':' then
              match jsonParseVal fuel r2 with
              | none => none
              | some (v, r3) =>
                let r4 := r3.dropWhile jsonWsChar
                match r4 with
                | [] => none
                | c3 :: r5 =>
                  if c3 == ',' then jsonParseObjBody fuel r5 (acc ++ [(k, v)])
                  else if c3 == Char.ofNat 125 then some (vObj (acc ++ [(k, v)]), r5)
                  else none
            else none
      else none

end

/-- Python `json.loads` on a string: the parse succeeds when the whole
input is consumed (fuel comfortably above the nesting depth bound). -/
def jsonLoads (s : String) : Option Value :=
  match jsonParseVal (2 * s.length + 8) s.toList with
  | some (v, rest) => if (rest.dropWhile jsonWsChar).isEmpty then some v else none
  | none => none

/-- Python `len(x)` (`none` = `TypeError`). -/
def pyLen : Value → Option Nat
  | vStr s => some s.length
  | vList xs => some xs.length
  | vObj kvs => some kvs.length
  | _ => none

/-- Python dict insertion: overwrite in place or append. -/
def dictInsert (d : List (String × Value)) (k : String) (v : Value) :
    List (String × Value) :=
  if pyHasKey d k then d.map (fun kv => if kv.1 = k then (k, v) else kv) else d ++ [(k, v)]

/-- The `for field in fields: if 'key' in field and 'value' in field:
field_dict[field['key']] = field['value']` loop shared by the extraction
and application services.  `none` is a raised `TypeError`: membership on a
number raises, and indexing a list/str field raises once the condition
holds.  Non-string `key` values fall outside the JSON-object embedding
(Python would key the dict by the raw hashable value) and are also mapped
to `none`; no caller in scope produces them. -/
def fieldsToDictAux (acc : List (String × Value)) : List Value → Option (List (String × Value))
  | [] => some acc
  | f :: rest =>
    match f with
    | vObj fk =>
      if pyHasKey fk "key" && pyHasKey fk "value" then
        match pyLookup fk "key", pyLookup fk "value" with
        | some (vStr k), some v => fieldsToDictAux (dictInsert acc k v) rest
        | _, _ => none
      else fieldsToDictAux acc rest
    | vList xs =>
      if (xs.any (fun x => decide (x = vStr "key"))) &&
          (xs.any (fun x => decide (x = vStr "value"))) then none
      else fieldsToDictAux acc rest
    | vStr s =>
      if containsSubChars s.toList "key".toList &&
          containsSubChars s.toList "value".toList then none
      else fieldsToDictAux acc rest
    | _ => none

/-- The generator `any('value' in field for field in fields)`
(line 316); short-circuits before later fields can raise; `none` is a
raised `TypeError`. -/
def anyHasValue : List Value → Option Bool
  | [] => some false
  | f :: rest =>
    match f with
    | vObj fk => if pyHasKey fk "value" then some true else anyHasValue rest
    | vList xs =>
      if xs.any (fun x => decide (x = vStr "value")) then some true else anyHasValue rest
    | vStr s =>
      if containsSubChars s.toList "value".toList then some true else anyHasValue rest
    | _ => none

/-- Result dict of the extraction service calls (the `file_id` echo field is
omitted; it never varies). -/
structure ExtractResult where
  success : Bool
  message : String
  data : Value
  deriving DecidableEq

/-- The `except` clause result of `_extract_with_box_ai`'s request handler
(lines 369–371); the interpolated exception text is abstracted. -/
def excApiError : ExtractResult :=
  { success := false, message := "API error", data := vNull }

/-- Top-level keys excluded by the completion-reason branch (line 308). -/
def excludedTopFields : List String :=
  ["ai_agent_info", "completion_reason", "created_at", "type", "id", "scope", "template"]

/-- Python `k.startswith('$')`: the first character is a dollar sign. -/
def startsWithDollar (k : String) : Bool :=
  match k.toList with
  | [] => false
  | c :: _ => c == '$'

/-- The dict comprehension of line 343: keep top-level keys that are neither
excluded nor `$`-prefixed. -/
def topLevelFilter (kvs : List (String × Value)) : List (String × Value) :=
  kvs.filter (fun kv => decide (kv.1 ∉ excludedTopFields) && !startsWithDollar kv.1)

/-- The `completion_reason`/`ai_agent_info` branch of `_extract_with_box_ai`
(lines 300–352) followed by the unknown-format fallthrough (lines 354–361),
for a dict response that matched neither the fields list nor the entries
branch. -/
def boxAiCompletionBranch (kvs : List (String × Value)) : ExtractResult :=
  if pyHasKey kvs "completion_reason" && pyHasKey kvs "ai_agent_info" then
    let step : Except ExtractResult (List (String × Value)) :=
      match pyLookup kvs "answer" with
      | some (vObj akvs) =>
        match pyLookup akvs "fields" with
        | some (vList afs) =>
          match anyHasValue afs with
          | none => .error excApiError
          | some true =>
            match fieldsToDictAux [] afs with
            | none => .error excApiError
            | some fd => .ok fd
          | some false =>
            .error { success := false,
                     message := "Box AI returned template definition instead of extracted data",
                     data := vNull }
        | _ => .ok akvs
      | some (vStr s) =>
        match jsonLoads s with
        | some (vObj pkvs) => .ok pkvs
        | some _ => .ok []
        | none => .ok [("extracted_text", vStr s)]
      | some _ => .ok []
      | none => .ok []
    match step with
    | .error r => r
    | .ok ed =>
      let ed' := if ed.isEmpty then topLevelFilter kvs else ed
      { success := true, message := "Metadata extraction completed successfully with AI",
        data := vObj ed' }
  else
    { success := true, message := "Extraction completed with unknown format", data := vObj kvs }

/-- The response processing of `_extract_with_box_ai` for a 200/202 response
(lines 274–361): explicit fields list, then legacy entries container, then
the completion-reason branch, then the unknown-format fallthrough; `in` on
a number and string-indexing a non-dict raise into the handler's `except`
clause. -/
def processBoxAiResponse (rj : Value) : ExtractResult :=
  match rj with
  | vObj kvs =>
    match pyLookup kvs "fields" with
    | some (vList fs) =>
      match fieldsToDictAux [] fs with
      | none => excApiError
      | some fd =>
        { success := true, message := "Metadata extraction completed successfully",
          data := vObj fd }
    | _ =>
      match pyLookup kvs "entries" with
      | some ev =>
        match pyLen ev with
        | none => excApiError
        | some n =>
          if n > 0 then
            match ev with
            | vList (vObj e0 :: _) =>
              { success := true, message := "Metadata extraction completed successfully",
                data := pyGet e0 "metadata" (vObj []) }
            | _ => excApiError
          else boxAiCompletionBranch kvs
      | none => boxAiCompletionBranch kvs
  | vList xs =>
    if xs.any (fun x => decide (x = vStr "fields")) then excApiError
    else if xs.any (fun x => decide (x = vStr "entries")) then excApiError
    else if (xs.any (fun x => decide (x = vStr "completion_reason"))) &&
        (xs.any (fun x => decide (x = vStr "ai_agent_info"))) then excApiError
    else { success := true, message := "Extraction completed with unknown format", data := vList xs }
  | vStr s =>
    if containsSubChars s.toList "fields".toList then excApiError
    else if containsSubChars s.toList "entries".toList then excApiError
    else if containsSubChars s.toList "completion_reason".toList &&
        containsSubChars s.toList "ai_agent_info".toList then excApiError
    else { success := true, message := "Extraction completed with unknown format", data := vStr s }
  | _ => excApiError

/-- Everything the extraction provider can do for one request: raise
(transport/auth error, bad JSON, …) or answer with a status code and a
JSON body of any shape. -/
inductive ProviderOutcome where
  | response : Nat → Value → ProviderOutcome
  | exc : String → ProviderOutcome
  deriving DecidableEq

/-- Embeds `BoxMetadataExtractionService._extract_with_box_ai`
(lines 199–377) as a function of the provider outcome. -/
def extract_with_box_ai (p : ProviderOutcome) : ExtractResult :=
  match p with
  | .exc m => { success := false, message := "API error: " ++ m, data := vNull }
  | .response status rj =>
    if status = 200 ∨ status = 202 then processBoxAiResponse rj
    else { success := false, message := "Extraction request failed", data := vNull }

/-- Embeds `BoxMetadataExtractionService._is_template_definition`
(lines 957–988): a fields list carrying prompt/type entries without values,
a provider bookkeeping indicator key, or all non-dict values empty. -/
def is_template_definition (metadata : Value) : Bool :=
  match metadata with
  | vObj kvs =>
    (match pyLookup kvs "fields" with
     | some (vList fs) =>
       fs.any (fun f =>
         match f with
         | vObj fk => pyHasKey fk "prompt" && pyHasKey fk "type" && !pyHasKey fk "value"
         | _ => false)
     | _ => false)
    || (["template_key", "ai_agent_info", "completion_reason"].any (fun k => pyHasKey kvs k))
    || ((kvs.filter (fun kv =>
          match kv.2 with
          | vObj _ => false
          | _ => true)).all (fun kv =>
            decide (kv.2 = vNull ∨ kv.2 = vStr "" ∨ kv.2 = vList [])))
  | _ => false

/-- The Box file-info object (only the name is consumed in scope). -/
structure FileInfo where
  name : String
  deriving DecidableEq

/-- Keyword test on the lowercased filename. -/
def containsKw (filename kw : String) : Bool :=
  containsSubChars filename.toList kw.toList

/-- The filename-keyword document-type heuristic of
`_extract_base_metadata_fallback` (lines 573–594). -/
def fallbackDocumentType (filename : String) : String :=
  if containsKw filename "1099" then "1099"
  else if containsKw filename "w-2" || containsKw filename "w2" then "W-2"
  else if containsKw filename "statement" &&
      (containsKw filename "account" || containsKw filename "bank" ||
        containsKw filename "brokerage") then "Account Statement"
  else if containsKw filename "mortgage" then "Mortgage Statement"
  else if containsKw filename "trust" then "Trust Document"
  else if containsKw filename "asset" && containsKw filename "list" then "Asset List"
  else if containsKw filename "1040" then "1040"
  else if containsKw filename "financial" && containsKw filename "statement" then
    "Personal Financial Statement"
  else if containsKw filename "insurance" then "Life Insurance Document"
  else "Unknown"

/-- Embeds `_extract_base_metadata_fallback` (lines 556–614): the heuristic
field set synthesised from the filename, always reported as success. -/
def extract_base_metadata_fallback (fi : FileInfo) : ExtractResult :=
  let filename := String.mk (fi.name.toList.map Char.toLower)
  { success := true, message := "Fallback metadata extraction completed",
    data := vObj [("documentType", vStr (fallbackDocumentType filename)),
                  ("documentDate", vNull), ("issuerName", vNull), ("recipientName", vNull)] }

/-- Embeds `BoxMetadataExtractionService.extract_base_metadata`
(lines 25–85): verify the file, call Box AI, discard template-definition
echoes, and degrade to the filename fallback on any provider failure. -/
def extract_base_metadata (fileAccess : Except String FileInfo)
    (p : ProviderOutcome) : ExtractResult :=
  match fileAccess with
  | .error e =>
    { success := false, message := "File not found or inaccessible: " ++ e, data := vNull }
  | .ok fi =>
    let er := extract_with_box_ai p
    if er.success then
      if is_template_definition er.data then extract_base_metadata_fallback fi
      else er
    else extract_base_metadata_fallback fi

/-- The static `template_map` of `_get_template_key_for_document_type`
(lines 676–688; duplicated verbatim in the application service). -/
def documentTypeTemplateMap : List (String × String) :=
  [("1099", "irs1099"), ("W-2", "irsw2"), ("Account Statement", "accountStatement"),
   ("Mortgage Statement", "mortgageStatement"), ("Trust Document", "trustDocument"),
   ("Asset List", "assetList"), ("1040", "irs1040"),
   ("Personal Financial Statement", "personalFinancialStatement"),
   ("Life Insurance Document", "lifeInsuranceDocument"), ("Other", "otherDocument")]

/-- Embeds `_get_template_key_for_document_type` (lines 667–698): map
lookup with the `otherDocument` default for unmapped types. -/
def get_template_key_for_document_type (document_type : String) : String :=
  match documentTypeTemplateMap.lookup document_type with
  | some tk => tk
  | none => "otherDocument"

/-- Embeds `_extract_document_type_fallback` (lines 616–665): an
empty-valued skeleton per known type, always reported as success. -/
def extract_document_type_fallback (document_type : String) : ExtractResult :=
  let metadata : List (String × Value) :=
    if document_type = "1099" then
      [("payerName", vNull), ("payerTIN", vNull), ("recipientTIN", vNull),
       ("nonemployeeCompensation", vNull)]
    else if document_type = "W-2" then
      [("employerEIN", vNull), ("wagesAndTips", vNull),
       ("federalIncomeTaxWithheld", vNull), ("socialSecurityWages", vNull)]
    else if document_type = "Account Statement" then
      [("accountNumber", vNull), ("statementDate", vNull),
       ("beginningBalance", vNull), ("endingBalance", vNull)]
    else []
  { success := true, message := "Fallback document-specific metadata created",
    data := vObj metadata }

/-- Embeds `extract_document_type_metadata` (lines 87–136).  The second
component records whether the `'No template for …'` failure branch
(lines 103–105, guarded by `if not template_key`) was taken. -/
def extract_document_type_metadata (document_type : String) (p : ProviderOutcome) :
    ExtractResult × Bool :=
  let template_key := get_template_key_for_document_type document_type
  if template_key = "" then
    ({ success := false, message := "No template for " ++ document_type, data := vNull }, true)
  else
    let er := extract_with_box_ai p
    if er.success then (er, false)
    else (extract_document_type_fallback document_type, false)

/-! ### Application-side interpreter: `_extract_metadata_values`
(box_metadata_application.py lines 319–454) -/

/-- The response-wrapper keys of line 329. -/
def bookkeepingKeys : List String := ["success", "message", "data", "file_id"]

/-- The dict comprehension of lines 441–443. -/
def emvCleanedFilter (kvs : List (String × Value)) : List (String × Value) :=
  kvs.filter (fun kv =>
    decide (kv.1 ∉ ["success", "message", "file_id", "type", "id", "scope", "template"]) &&
      !startsWithDollar kv.1)

/-- The dict comprehension of lines 403–405 (the ai-branch key filter). -/
def emvAiFilter (kvs : List (String × Value)) : List (String × Value) :=
  kvs.filter (fun kv =>
    decide (kv.1 ∉ ["ai_agent_info", "completion_reason", "created_at", "type", "id",
                    "scope", "template", "success", "message", "file_id"]) &&
      !startsWithDollar kv.1)

/-- The `ai_agent_info` branch of `_extract_metadata_values`
(lines 341–412). -/
def emvAiBranch (kvs : List (String × Value)) : Option Value :=
  match pyLookup kvs "fields" with
  | some (vList fs) =>
    match fieldsToDictAux [] fs with
    | none => none
    | some fd => some (vObj fd)
  | _ =>
    match pyLookup kvs "answer" with
    | some (vObj akvs) =>
      match pyLookup akvs "fields" with
      | some (vList afs) =>
        match fieldsToDictAux [] afs with
        | none => none
        | some fd => some (vObj fd)
      | _ => some (vObj akvs)
    | some (vStr s) =>
      match jsonLoads s with
      | some (vObj pkvs) => some (vObj pkvs)
      | some _ => some (vObj (emvAiFilter kvs))
      | none => some (vObj [("extracted_text", vStr s)])
    | some _ => some (vObj (emvAiFilter kvs))
    | none => some (vObj (emvAiFilter kvs))

/-- Embeds `BoxMetadataApplicationService._extract_metadata_values`
(lines 319–454): direct key/value dicts pass through, then the `data`
wrapper, the Box-AI branch, the fields list, the legacy `metadata` field,
and finally the best-effort key filter; non-dict inputs reduce to an empty
dict.  `none` models an exception escaping to the caller (only possible
inside a malformed fields list). -/
def extract_metadata_values (extraction_result : Value) : Option Value :=
  match extraction_result with
  | vObj kvs =>
    if !(bookkeepingKeys.any (fun k => pyHasKey kvs k)) then some (vObj kvs)
    else
      match pyLookup kvs "data" with
      | some (vObj dkvs) => some (vObj dkvs)
      | _ =>
        if pyHasKey kvs "ai_agent_info" then emvAiBranch kvs
        else
          match pyLookup kvs "fields" with
          | some (vList fs) =>
            match fieldsToDictAux [] fs with
            | none => none
            | some fd => some (vObj fd)
          | _ =>
            match pyLookup kvs "metadata" with
            | some m => some m
            | none => some (vObj (emvCleanedFilter kvs))
  | _ => some (vObj [])

/-! ### Spec-level interpreter classification -/

/-- The `kind` tags of the spec's `ExtractionResponseInterpreter` (§4.1). -/
inductive InterpKind where
  | values : InterpKind
  | schemaEcho : InterpKind
  | unrecognized : InterpKind
  deriving DecidableEq

/-- Modelled from the spec: the interpreter contract
`interpret(rawResponse) -> (kind, fields)` of §4.1, expressed over the
source composition used by `extract_base_metadata`: the shape reduction of
`_extract_with_box_ai` classified by `_is_template_definition` (the
source's schema-echo signal, on which the orchestrator discards the fields
and falls back), with provider-level failures mapped to an empty
unrecognized result. -/
def interpret (status : Nat) (rj : Value) : InterpKind × Value :=
  let er := extract_with_box_ai (.response status rj)
  if er.success then
    if is_template_definition er.data then (.schemaEcho, vObj [])
    else (.values, er.data)
  else (.unrecognized, vObj [])

/-! ### DocumentProcessingPipeline: the post-base stage flow of
`process_document_metadata` (views.py lines 1800–1905)

The view's remaining remote interactions are parameters: the
address-template attach step (whose re-raised exception aborts the address
phase), the address extraction result, and the address application result.
Document-type-specific extraction and application are skipped for every
document (demo mode, lines 1816–1821), and the address phase does not
consult the document type at all. -/

/-- Success flag and message of one pipeline stage result dict. -/
structure StageResult where
  success : Bool
  message : String
  deriving DecidableEq

/-- Which downstream stages the view actually executed. -/
structure StageTrace where
  typeExtractionPerformed : Bool
  typeApplicationPerformed : Bool
  addressExtractionPerformed : Bool
  addressApplicationPerformed : Bool
  addressComparisonPerformed : Bool
  deriving DecidableEq

/-- Outcome of the post-base flow: the document-type stage result, the
address-validation result flag, and the stage trace. -/
structure PipelineTailOutcome where
  document_type_result : StageResult
  address_validation_success : Bool
  trace : StageTrace
  deriving DecidableEq

/-- Embeds the stage flow of `process_document_metadata` after the base
apply (views.py lines 1800–1905): Step 4 skips type-specific processing
with a success message for every document; Step 5 attaches the address
template (an attach exception aborts the phase, lines 1883–1889), extracts
address metadata, applies it on extraction success, and compares addresses
when the applied extraction data is truthy (lines 1840–1881). -/
def process_document_metadata_tail (document_type : Option String)
    (attach : Except String Unit) (addrExtraction : ExtractResult)
    (addrApplication : StageResult) : PipelineTailOutcome :=
  let dtName := match document_type with
    | some t => t
    | none => "Unknown"
  let document_type_result : StageResult :=
    { success := true,
      message := "Document type identified as " ++ dtName ++
        " - demo mode, skipping detailed metadata extraction" }
  match attach with
  | .error _ =>
    { document_type_result := document_type_result, address_validation_success := false,
      trace := ⟨false, false, false, false, false⟩ }
  | .ok _ =>
    if addrExtraction.success then
      if addrApplication.success then
        { document_type_result := document_type_result,
          address_validation_success := true,
          trace := ⟨false, false, true, true, pyTruthy addrExtraction.data⟩ }
      else
        { document_type_result := document_type_result,
          address_validation_success := false,
          trace := ⟨false, false, true, true, false⟩ }
    else
      { document_type_result := document_type_result,
        address_validation_success := false,
        trace := ⟨false, false, true, false, false⟩ }

/-- Modelled from the spec (§4.1): a provider field-list entry that carries
both a `key` (a string, as in every JSON shape in scope) and a `value`;
used to state which exact pairs the interpreter must return. -/
def entryKeyValue : Value → Option (String × Value)
  | vObj fk =>
    match pyLookup fk "key", pyLookup fk "value" with
    | some (vStr k), some v => some (k, v)
    | _, _ => none
  | _ => none

/-! ## Theorems -/

/-! ### Shared sanitiser lemmas -/

theorem natDigits_ne_nil (n : Nat) : natDigits n ≠ [] := by
  unfold natDigits natDigitsAux
  split <;> simp

theorem pyNumRepr_ne_empty (q : ℚ) : pyNumRepr q ≠ "" := by
  unfold pyNumRepr
  intro he
  have hd := congrArg String.data he
  simp only [String.data] at hd
  rcases List.append_eq_nil.mp hd with ⟨h1, -⟩
  rcases List.append_eq_nil.mp h1 with ⟨-, h2⟩
  exact natDigits_ne_nil _ h2

theorem pyStr_ne_empty : ∀ v : Value, v ≠ vStr "" → pyStr v ≠ "" := by
  intro v hv
  cases v with
  | vNull => decide
  | vBool b => cases b <;> decide
  | vNum q => exact pyNumRepr_ne_empty q
  | vStr s =>
    intro he
    exact hv (by rw [show s = "" from he])
  | vList xs =>
    intro he
    have h1 := congrArg String.length he
    simp only [pyStr, String.length_append, show "[".length = 1 from rfl,
      show "]".length = 1 from rfl, show ("" : String).length = 0 from rfl] at h1
    omega
  | vObj kvs =>
    intro he
    have h1 := congrArg String.length he
    simp only [pyStr, String.length_append, show "\x7b".length = 1 from rfl,
      show "\x7d".length = 1 from rfl, show ("" : String).length = 0 from rfl] at h1
    omega

theorem pyFloatCoerce_ne (v : Value) (hv : v ≠ vStr "") :
    pyFloatCoerce v ≠ vNull ∧ pyFloatCoerce v ≠ vStr "" := by
  cases v with
  | vNull => exact ⟨by decide, by decide⟩
  | vBool b => simp [pyFloatCoerce]
  | vNum q => simp [pyFloatCoerce]
  | vStr s =>
    simp only [pyFloatCoerce]
    cases parseFloatQ s with
    | none =>
      refine ⟨by simp, ?_⟩
      intro he
      exact hv (by rw [show s = "" by exact vStr.inj he])
    | some q => simp
  | vList xs =>
    simp only [pyFloatCoerce]
    exact ⟨by simp, by simp [pyStr_ne_empty (vList xs) (by simp)]⟩
  | vObj kvs =>
    simp only [pyFloatCoerce]
    exact ⟨by simp, by simp [pyStr_ne_empty (vObj kvs) (by simp)]⟩

theorem sanitizeField_some_ne (ft : List (String × String)) (tk k : String)
    (v v' : Value) (h : sanitizeField ft tk k v = some v') :
    v' ≠ vNull ∧ v' ≠ vStr "" := by
  unfold sanitizeField at h
  split at h
  · exact absurd h (by simp)
  · rename_i hskip
    have hvs : v ≠ vStr "" := fun he => hskip (Or.inr he)
    split at h
    · -- date branch
      cases v with
      | vStr s =>
        simp only [sanitizeDateValue] at h
        split at h
        · split at h
          · have hv' := (Option.some.inj h).symm
            subst hv'
            refine ⟨by simp, ?_⟩
            intro he
            have h2 := congrArg String.length (vStr.inj he)
            simp only [String.length_append, show "T00:00:00Z".length = 10 from rfl,
              show ("" : String).length = 0 from rfl] at h2
            omega
          · exact Option.noConfusion h
        · exact Option.noConfusion h
      | vNull => simp [sanitizeDateValue] at h
      | vBool b => simp [sanitizeDateValue] at h
      | vNum q => simp [sanitizeDateValue] at h
      | vList xs => simp [sanitizeDateValue] at h
      | vObj kvs => simp [sanitizeDateValue] at h
    · split at h
      · -- enum branch
        split at h
        · -- validation_status special case
          have hv' := (Option.some.inj h).symm
          subst hv'
          split
          · rename_i hmem
            simp only [validStatuses, List.mem_cons, List.not_mem_nil, or_false] at hmem
            rcases hmem with h1 | h1 | h1 | h1 <;> subst h1 <;> exact ⟨by decide, by decide⟩
          · exact ⟨by decide, by decide⟩
        · have hv' := (Option.some.inj h).symm
          subst hv'
          exact ⟨by simp, by simp [pyStr_ne_empty v hvs]⟩
      · split at h
        · -- number branch
          have hv' := (Option.some.inj h).symm
          subst hv'
          exact pyFloatCoerce_ne v hvs
        · -- default string branch
          have hv' := (Option.some.inj h).symm
          subst hv'
          exact ⟨by simp, by simp [pyStr_ne_empty v hvs]⟩

theorem sanitize_values_ne (md : List (String × Value)) (ft : List (String × String))
    (tk : String) :
    ∀ kv ∈ sanitize_metadata md ft tk, kv.2 ≠ vNull ∧ kv.2 ≠ vStr "" := by
  induction md with
  | nil => intro kv hkv; simp [sanitize_metadata] at hkv
  | cons p rest ih =>
    intro kv hkv
    rw [sanitize_metadata] at hkv
    rcases hc : sanitizeField ft tk p.1 p.2 with _ | v'
    · rw [hc] at hkv
      exact ih kv hkv
    · rw [hc] at hkv
      rcases List.mem_cons.mp hkv with h1 | h1
      · subst h1
        exact sanitizeField_some_ne ft tk p.1 p.2 v' hc
      · exact ih kv h1

theorem parseFloatChars_head_invalid (c : Char) (r : List Char)
    (hws : wsChar c = false) (hm : (c == '-') = false) (hp : (c == '+') = false)
    (hd : c.isDigit = false) (hdot : (c == '.') = false) :
    parseFloatChars (c :: r) = none := by
  have hdw : List.dropWhile wsChar (c :: r) = c :: r := by
    simp [List.dropWhile_cons, hws]
  have hdt : dropTrailingWs (c :: r) = c :: dropTrailingWs r := by
    simp [dropTrailingWs, hws]
  simp only [parseFloatChars, hdw, hdt, hm, hp, Bool.or_self, Bool.false_or,
    if_neg (by simp : ¬False)]
  simp [List.takeWhile_cons, List.dropWhile_cons, hd, hdot]

theorem parseFloatQ_pyStr_vList (xs : List Value) :
    parseFloatQ (pyStr (vList xs)) = none := by
  have hdata : (pyStr (vList xs)).toList = '[' :: ((pyStrList xs).data ++ "]".data) := by
    show (("[" ++ pyStrList xs) ++ "]").data = _
    rw [String.data_append, String.data_append]
    rfl
  rw [parseFloatQ, hdata]
  exact parseFloatChars_head_invalid _ _ (by decide) (by decide) (by decide) (by decide)
    (by decide)

theorem parseFloatQ_pyStr_vObj (kvs : List (String × Value)) :
    parseFloatQ (pyStr (vObj kvs)) = none := by
  have hdata : (pyStr (vObj kvs)).toList
      = '\x7b' :: ((pyStrObj kvs).data ++ "\x7d".data) := by
    show (("\x7b" ++ pyStrObj kvs) ++ "\x7d").data = _
    rw [String.data_append, String.data_append]
    rfl
  rw [parseFloatQ, hdata]
  exact parseFloatChars_head_invalid _ _ (by decide) (by decide) (by decide) (by decide)
    (by decide)

theorem pyFloatCoerce_idem (v : Value) : pyFloatCoerce (pyFloatCoerce v) = pyFloatCoerce v := by
  cases v with
  | vNull =>
    show pyFloatCoerce (vStr "None") = vStr "None"
    simp [pyFloatCoerce, show parseFloatQ "None" = none by decide]
  | vBool b => rfl
  | vNum q => rfl
  | vStr s =>
    simp only [pyFloatCoerce]
    cases hp : parseFloatQ s with
    | some q => rfl
    | none => simp [pyFloatCoerce, hp]
  | vList xs =>
    show pyFloatCoerce (vStr (pyStr (vList xs))) = vStr (pyStr (vList xs))
    simp [pyFloatCoerce, parseFloatQ_pyStr_vList]
  | vObj kvs =>
    show pyFloatCoerce (vStr (pyStr (vObj kvs))) = vStr (pyStr (vObj kvs))
    simp [pyFloatCoerce, parseFloatQ_pyStr_vObj]

theorem sanitizeField_idem (ft : List (String × String)) (tk k : String)
    (v v' : Value) (hnd : fieldTypeFor ft k ≠ "date")
    (h : sanitizeField ft tk k v = some v') :
    sanitizeField ft tk k v' = some v' := by
  obtain ⟨hn, hne⟩ := sanitizeField_some_ne ft tk k v v' h
  have hskip' : ¬(v' = vNull ∨ v' = vStr "") := by
    rintro (h1 | h1)
    · exact hn h1
    · exact hne h1
  have hskipv : ¬(v = vNull ∨ v = vStr "") := by
    intro hs
    rw [sanitizeField, if_pos hs] at h
    cases h
  rw [sanitizeField, if_neg hskipv, if_neg hnd] at h
  rw [sanitizeField, if_neg hskip', if_neg hnd]
  by_cases henum : fieldTypeFor ft k = "enum"
  · rw [if_pos henum] at h ⊢
    by_cases hsp : tk = "address_validation" ∧ k = "validation_status"
    · rw [if_pos hsp] at h ⊢
      have hv' := Option.some.inj h
      have hvmem : v' ∈ validStatuses := by
        by_cases hm : v ∈ validStatuses
        · rw [if_pos hm] at hv'
          exact hv' ▸ hm
        · rw [if_neg hm] at hv'
          rw [← hv']
          decide
      rw [if_pos hvmem]
    · rw [if_neg hsp] at h ⊢
      have hv' := (Option.some.inj h).symm
      subst hv'
      rfl
  · rw [if_neg henum] at h ⊢
    by_cases hnum : fieldTypeFor ft k = "float" ∨ fieldTypeFor ft k = "number" ∨
        fieldTypeFor ft k = "int"
    · rw [if_pos hnum] at h ⊢
      have hv' := (Option.some.inj h).symm
      subst hv'
      rw [pyFloatCoerce_idem]
    · rw [if_neg hnum] at h ⊢
      have hv' := (Option.some.inj h).symm
      subst hv'
      rfl

/-! ### C1 -/

/-- C1: the claim (and the source's own comment at
box_metadata_application.py line 527, `Unknown fields are silently
skipped`) says a field whose key is absent from the schema is dropped; the
code instead defaults the unknown key's type to `string`
(`field_types.get(key, "string")`, line 528) and keeps the field.  At the
failing input `{"bogus": "x"}` against an empty schema, the sanitized
output still contains `bogus`. -/
theorem c1_unknown_key_kept :
    sanitize_metadata [("bogus", vStr "x")] [] "financialDocumentBase"
      = [("bogus", vStr "x")] := by decide

/-! ### C6 -/

/-- C6 counterexample: sanitization is not idempotent.  A valid `date` field
is converted to the 20-character form `YYYY-MM-DDT00:00:00Z`, which the
date branch of a second application rejects (its length is no longer 10)
and drops, so the second sanitized set differs from the first. -/
theorem c6_counterexample :
    sanitize_metadata
        (sanitize_metadata [("documentDate", vStr "2023-04-01")]
          [("documentDate", "date")] "financialDocumentBase")
        [("documentDate", "date")] "financialDocumentBase"
      ≠ sanitize_metadata [("documentDate", vStr "2023-04-01")]
          [("documentDate", "date")] "financialDocumentBase" := by decide

/-- C6 amended: sanitization is idempotent on every field mapping whose
keys are not declared as `date` in the schema (date fields kept by a first
application are dropped by a second one; all other branches are fixed
points). -/
theorem c6_sanitize_idempotent_without_dates (md : List (String × Value))
    (ft : List (String × String)) (tk : String)
    (hnd : ∀ kv ∈ md, fieldTypeFor ft kv.1 ≠ "date") :
    sanitize_metadata (sanitize_metadata md ft tk) ft tk
      = sanitize_metadata md ft tk := by
  induction md with
  | nil => rfl
  | cons p rest ih =>
    have hp := hnd p (List.mem_cons_self p rest)
    have hrest : ∀ kv ∈ rest, fieldTypeFor ft kv.1 ≠ "date" :=
      fun kv hkv => hnd kv (List.mem_cons_of_mem p hkv)
    rw [sanitize_metadata]
    rcases hc : sanitizeField ft tk p.1 p.2 with _ | v'
    · exact ih hrest
    · rw [sanitize_metadata, sanitizeField_idem ft tk p.1 p.2 v' hp hc, ih hrest]

/-- C6 witness: the amended idempotence at a concrete date-free mapping. -/
theorem c6_witness :
    (∀ kv ∈ [("documentType", vStr "W-2"), ("issuerName", vStr "Fidelity"),
        ("box1Wages", vStr "51000.25")],
      fieldTypeFor [("documentType", "enum"), ("box1Wages", "float")] kv.1 ≠ "date") ∧
    sanitize_metadata
        (sanitize_metadata
          [("documentType", vStr "W-2"), ("issuerName", vStr "Fidelity"),
           ("box1Wages", vStr "51000.25")]
          [("documentType", "enum"), ("box1Wages", "float")] "irsw2")
        [("documentType", "enum"), ("box1Wages", "float")] "irsw2"
      = sanitize_metadata
          [("documentType", vStr "W-2"), ("issuerName", vStr "Fidelity"),
           ("box1Wages", vStr "51000.25")]
          [("documentType", "enum"), ("box1Wages", "float")] "irsw2" :=
  ⟨by decide,
    c6_sanitize_idempotent_without_dates _ _ _ (by decide)⟩

/-! ### C2 -/

theorem keyCount_of_not_any (db : List AddressMismatch) (u f : String)
    (h : db.any (keyMatches u f) = false) : keyCount db u f = 0 := by
  induction db with
  | nil => rfl
  | cons r rest ih =>
    simp only [List.any_cons, Bool.or_eq_false_iff] at h
    simp only [keyCount, List.filter_cons, h.1]
    exact ih h.2

theorem keyCount_map_overwrite (db : List AddressMismatch) (u f : String)
    (rec : AddressMismatch) (hrec : keyMatches u f rec = true) :
    keyCount (db.map (fun r => if keyMatches u f r then rec else r)) u f
      = keyCount db u f := by
  induction db with
  | nil => rfl
  | cons r rest ih =>
    by_cases hr : keyMatches u f r
    · simp only [List.map_cons, if_pos hr, keyCount, List.filter_cons, hr, hrec, if_true]
      simp only [keyCount] at ih
      simp [ih]
    · have hrf : keyMatches u f r = false := by
        cases hb : keyMatches u f r
        · rfl
        · exact absurd hb hr
      simp only [keyCount] at ih ⊢
      simp [List.map_cons, hrf, List.filter_cons, ih]

theorem keyCount_append_single (db : List AddressMismatch) (u f : String)
    (rec : AddressMismatch) :
    keyCount (db ++ [rec]) u f
      = keyCount db u f + (if keyMatches u f rec then 1 else 0) := by
  simp only [keyCount, List.filter_append]
  rw [List.length_append]
  congr 1
  by_cases hr : keyMatches u f rec <;> simp [List.filter_cons, hr]

theorem keyCount_filter_not (db : List AddressMismatch) (u f : String) :
    keyCount (db.filter (fun r => !keyMatches u f r)) u f = 0 := by
  induction db with
  | nil => rfl
  | cons r rest ih =>
    by_cases hr : keyMatches u f r
    · simp only [keyCount] at ih
      simp [keyCount, List.filter_cons, hr, ih]
    · simp only [keyCount] at ih
      simp [keyCount, List.filter_cons, hr, ih]

/-- One `compare_addresses` call preserves the per-key row bound: a detected
mismatch overwrites the existing row or inserts the single first one, an
all-match comparison deletes every row for the key. -/
theorem compare_addresses_key_invariant (ci : Option ClientOnboardingInfo)
    (ex : List (String × Value)) (u f fn : String) (db : List AddressMismatch)
    (h : keyCount db u f ≤ 1) :
    keyCount (compare_addresses ci ex u f fn db).2 u f ≤ 1 := by
  unfold compare_addresses
  match ci with
  | none => exact h
  | some c =>
    dsimp only
    split
    · exact h
    · cases hmt : determine_mismatch_type (compare_address_components c ex) with
      | none =>
        simp only [keyCount_filter_not]
        omega
      | some m =>
        dsimp only
        unfold mismatchUpdateOrCreate
        split
        · rename_i hany
          rw [keyCount_map_overwrite db u f _ (by simp [keyMatches, mkMismatch])]
          exact h
        · rename_i hany
          rw [keyCount_append_single]
          rw [keyCount_of_not_any db u f (Bool.of_not_eq_true hany)]
          simp [keyMatches, mkMismatch]

/-- C2: for a fixed `(client, file_id)` pair, after any sequence of compare
calls with arbitrary onboarding lookups and extracted addresses, at most
one `AddressMismatch` row exists for the pair, provided the starting table
satisfies the same bound (which the `unique_together` constraint of
models.py guarantees). -/
theorem c2_at_most_one_mismatch_record (u f : String) (calls : List CompareCall)
    (db : List AddressMismatch) (h : keyCount db u f ≤ 1) :
    keyCount (runCompares u f calls db) u f ≤ 1 := by
  induction calls generalizing db with
  | nil => simpa [runCompares] using h
  | cons c rest ih =>
    rw [runCompares]
    exact ih _ (compare_addresses_key_invariant c.client_info c.extracted u f c.fname db h)

/-- C2 witness: a concrete two-call sequence (full mismatch twice) from the
empty table keeps at most one row for the pair. -/
theorem c2_witness :
    keyCount ([] : List AddressMismatch) "client1" "file9" ≤ 1 ∧
    keyCount
      (runCompares "client1" "file9"
        [⟨some ⟨"12 Elm St", "Springfield", "IL", "62704"⟩,
          [("street_address", vStr "45 Oak Ave"), ("city", vStr "Metropolis"),
           ("state_province", vStr "NY"), ("postal_code", vStr "10001")], "doc.pdf"⟩,
         ⟨some ⟨"12 Elm St", "Springfield", "IL", "62704"⟩,
          [("street_address", vStr "99 Pine Rd"), ("city", vStr "Gotham"),
           ("state_province", vStr "NJ"), ("postal_code", vStr "07001")], "doc.pdf"⟩]
        []) "client1" "file9" ≤ 1 :=
  ⟨by decide, c2_at_most_one_mismatch_record "client1" "file9" _ [] (by decide)⟩

/-! ### C4 -/

theorem patchOperations_full (sanitized : List (String × Value))
    (hv : ∀ kv ∈ sanitized, kv.2 ≠ vNull ∧ kv.2 ≠ vStr "") :
    patchOperations sanitized = sanitized.map
      (fun kv => vObj [("op", vStr "add"), ("path", vStr ("/" ++ kv.1)), ("value", kv.2)]) := by
  unfold patchOperations
  congr 1
  apply List.filter_eq_self.mpr
  intro kv hkv
  simpa using hv kv hkv

/-- C4 counterexample: the claim says that on any create failure other than
a conflict, apply returns failure without attempting the update; but on a
generic exception during the POST (`except Exception`, lines 612–613) the
code falls through to the update path — here the PUT even succeeds, so the
call reports success. -/
theorem c4_counterexample :
    (apply_metadata [] "financialDocumentBase" [("documentType", vStr "W-2")]
        (CreateOutcome.exc "Connection aborted")
        (UpdateOutcome.httpResponse 200 (vObj []) "")).2.updatePathEntered = true ∧
    (apply_metadata [] "financialDocumentBase" [("documentType", vStr "W-2")]
        (CreateOutcome.exc "Connection aborted")
        (UpdateOutcome.httpResponse 200 (vObj []) "")).1.success = true := by decide

/-- C4 amended: a create conflict (HTTP 409 or `BoxAPIException` 409)
proceeds to the update path, converting every sanitized field to an `add`
patch; a non-2xx/non-409 HTTP status or a non-409 `BoxAPIException` returns
failure without entering the update path; a generic exception during the
create also falls through to the update path; and against a conforming
store with no prior record, two successive applies of the same fields
perform one create (first call) then one update (second call), both
reporting success. -/
theorem c4_conflict_update_and_upsert (ft : List (String × String)) (tk : String)
    (md : List (String × Value)) (upd : UpdateOutcome) (st : Nat) (body : Value)
    (content msg : String) (hs : sanitize_metadata md ft tk ≠ []) :
    ((apply_metadata ft tk md (.httpResponse 409 body content) upd).2.updatePathEntered
      = true) ∧
    ((apply_metadata ft tk md (.boxApiExc 409) upd).2.updatePathEntered = true) ∧
    (¬(200 ≤ st ∧ st < 300) → st ≠ 409 →
      (apply_metadata ft tk md (.httpResponse st body content) upd).1.success = false ∧
      (apply_metadata ft tk md (.httpResponse st body content) upd).2.updatePathEntered
        = false) ∧
    (st ≠ 409 →
      (apply_metadata ft tk md (.boxApiExc st) upd).1.success = false ∧
      (apply_metadata ft tk md (.boxApiExc st) upd).2.updatePathEntered = false) ∧
    ((apply_metadata ft tk md (.exc msg) upd).2.updatePathEntered = true) ∧
    (patchOperations (sanitize_metadata md ft tk)).length
      = (sanitize_metadata md ft tk).length ∧
    ((apply_with_store ft tk md false).1.success = true ∧
      (apply_with_store ft tk md false).1.message = "Metadata created successfully" ∧
      (apply_with_store ft tk md false).2.1.updatePathEntered = false ∧
      (apply_with_store ft tk md false).2.2 = true) ∧
    ((apply_with_store ft tk md true).1.success = true ∧
      (apply_with_store ft tk md true).1.message = "Metadata updated successfully" ∧
      (apply_with_store ft tk md true).2.1.updatePathEntered = true) := by
  have hval := sanitize_values_ne md ft tk
  have hfull := patchOperations_full (sanitize_metadata md ft tk) hval
  have hE : (sanitize_metadata md ft tk).isEmpty = false := by
    cases hsl : sanitize_metadata md ft tk with
    | nil => exact absurd hsl hs
    | cons a l => rfl
  have hopsE : (patchOperations (sanitize_metadata md ft tk)).isEmpty = false := by
    rw [hfull]
    cases hsl : sanitize_metadata md ft tk with
    | nil => exact absurd hsl hs
    | cons a l => rfl
  refine ⟨?_, ?_, ?_, ?_, ?_, ?_, ?_, ?_⟩
  · simp only [apply_metadata, hE, Bool.false_eq_true, if_false, hopsE]
    norm_num
    cases upd with
    | httpResponse st2 b2 c2 =>
      dsimp only
      split <;> rfl
    | exc m => rfl
  · simp only [apply_metadata, hE, Bool.false_eq_true, if_false, hopsE]
    norm_num
    cases upd with
    | httpResponse st2 b2 c2 =>
      dsimp only
      split <;> rfl
    | exc m => rfl
  · intro h1 h2
    simp only [apply_metadata, hE, Bool.false_eq_true, if_false]
    rw [if_neg h1, if_neg h2]
    exact ⟨rfl, rfl⟩
  · intro h2
    simp only [apply_metadata, hE, Bool.false_eq_true, if_false]
    rw [if_neg h2]
    exact ⟨rfl, rfl⟩
  · simp only [apply_metadata, hE, Bool.false_eq_true, if_false, hopsE]
    cases upd with
    | httpResponse st2 b2 c2 =>
      dsimp only
      split <;> rfl
    | exc m => rfl
  · rw [hfull, List.length_map]
  · simp only [apply_with_store, box_store_create, box_store_update, apply_metadata, hE,
      Bool.false_eq_true, if_false, Bool.false_or]
    norm_num
  · simp only [apply_with_store, box_store_create, box_store_update, apply_metadata, hE,
      Bool.false_eq_true, if_false, hopsE]
    norm_num

/-- C4 witness: the amended behaviour at a concrete field set. -/
theorem c4_witness :
    sanitize_metadata [("documentType", vStr "W-2")] [] "financialDocumentBase" ≠ [] ∧
    (apply_with_store [] "financialDocumentBase" [("documentType", vStr "W-2")]
        false).1.message = "Metadata created successfully" ∧
    (apply_with_store [] "financialDocumentBase" [("documentType", vStr "W-2")]
        true).1.message = "Metadata updated successfully" :=
  ⟨by decide,
    (c4_conflict_update_and_upsert [] "financialDocumentBase"
      [("documentType", vStr "W-2")] (UpdateOutcome.exc "unused") 500 vNull "" ""
      (by decide)).2.2.2.2.2.2.1.2.1,
    (c4_conflict_update_and_upsert [] "financialDocumentBase"
      [("documentType", vStr "W-2")] (UpdateOutcome.exc "unused") 500 vNull "" ""
      (by decide)).2.2.2.2.2.2.2.2.1⟩

/-! ### C3 -/

/-- C3: once the file lookup succeeds, `extract_base_metadata` reports
`success=true` for every behaviour of the extraction provider — transport
error, exception, or any response status and JSON shape — and whenever the
Box-AI call itself fails it returns exactly the filename-heuristic fallback
result (a template-definition echo likewise degrades to the fallback). -/
theorem c3_single_extraction_never_hard_fails (fi : FileInfo) (p : ProviderOutcome) :
    (extract_base_metadata (Except.ok fi) p).success = true ∧
    ((extract_with_box_ai p).success = false →
      extract_base_metadata (Except.ok fi) p = extract_base_metadata_fallback fi) := by
  constructor
  · show (let er := extract_with_box_ai p
      if er.success then
        if is_template_definition er.data then extract_base_metadata_fallback fi else er
      else extract_base_metadata_fallback fi).success = true
    cases hs : (extract_with_box_ai p).success
    · simp [hs, extract_base_metadata_fallback]
    · by_cases ht : is_template_definition (extract_with_box_ai p).data
      · simp [hs, ht, extract_base_metadata_fallback]
      · simp [hs, ht]
  · intro hs
    show (let er := extract_with_box_ai p
      if er.success then
        if is_template_definition er.data then extract_base_metadata_fallback fi else er
      else extract_base_metadata_fallback fi) = extract_base_metadata_fallback fi
    simp [hs]

/-- C3 witness: a transport exception on a W-2 filename degrades to the
heuristic fallback and still reports success. -/
theorem c3_witness :
    (extract_with_box_ai (ProviderOutcome.exc "timeout")).success = false ∧
    (extract_base_metadata (Except.ok ⟨"My W2 Form.pdf"⟩)
        (ProviderOutcome.exc "timeout")).success = true ∧
    extract_base_metadata (Except.ok ⟨"My W2 Form.pdf"⟩) (ProviderOutcome.exc "timeout")
      = extract_base_metadata_fallback ⟨"My W2 Form.pdf"⟩ :=
  ⟨by decide,
    (c3_single_extraction_never_hard_fails ⟨"My W2 Form.pdf"⟩
      (ProviderOutcome.exc "timeout")).1,
    (c3_single_extraction_never_hard_fails ⟨"My W2 Form.pdf"⟩
      (ProviderOutcome.exc "timeout")).2 (by decide)⟩

/-! ### C5 -/

theorem simRatio_atLeast_iff (r : SimRatio) (h : 0 < r.den) :
    r.atLeast 4 5 = decide ((4 : ℚ)/5 ≤ r.toQ) := by
  have hd : (0 : ℚ) < (r.den : ℚ) := by exact_mod_cast h
  rw [SimRatio.atLeast, SimRatio.toQ, decide_eq_decide,
    div_le_div_iff₀ (by norm_num : (0:ℚ) < 5) hd, ge_iff_le]
  constructor
  · intro hh
    have h2 : ((4 * r.den : ℕ) : ℚ) ≤ ((5 * r.num : ℕ) : ℚ) := by exact_mod_cast hh
    push_cast at h2
    linarith
  · intro hh
    have h2 : ((4 * r.den : ℕ) : ℚ) ≤ ((5 * r.num : ℕ) : ℚ) := by push_cast; linarith
    exact_mod_cast h2

theorem calculate_similarity_den_pos (s1 s2 : List Char) :
    0 < (calculate_similarity s1 s2).den := by
  unfold calculate_similarity sm_ratio
  split
  · exact Nat.one_pos
  · split
    · exact Nat.one_pos
    · rename_i h1 h2
      simp only [Bool.or_eq_true, not_or, List.isEmpty_iff] at h2
      push_neg at h2
      simp only [List.length_map]
      have l1 : 0 < s1.length := List.length_pos.mpr h2.1
      omega

theorem length_filter_lt_of_mem_not {α : Type} (l : List α) (p : α → Bool) (x : α)
    (hx : x ∈ l) (hpx : p x = false) : (l.filter p).length < l.length := by
  induction l with
  | nil => cases hx
  | cons a as ih =>
    rcases List.mem_cons.mp hx with h1 | h1
    · subst h1
      simp only [List.filter_cons, hpx, Bool.false_eq_true, if_false]
      have := List.length_filter_le p as
      simp only [List.length_cons]
      omega
    · by_cases hpa : p a
      · simp only [List.filter_cons, hpa, if_true, List.length_cons]
        have := ih h1
        omega
      · have hpaf : p a = false := by
          cases hb : p a
          · rfl
          · exact absurd hb hpa
        simp only [List.filter_cons, hpaf, Bool.false_eq_true, if_false]
        have := ih h1
        simp only [List.length_cons]
        omega

/-- C5: each of the four normalized components is marked a match exactly
when its similarity ratio is at least 0.8; empty-vs-empty similarity is 1
and empty-vs-nonempty 0; all four matching yields no mismatch (clearing any
existing record for the pair), none matching yields `full_mismatch`, a
proper mixture yields `partial_mismatch`. -/
theorem c5_component_threshold_and_classification (ci : ClientOnboardingInfo)
    (extracted : List (String × Value)) (u f fn : String) (db : List AddressMismatch) :
    (∀ kc ∈ compare_address_components ci extracted,
        kc.2.matched = decide ((4 : ℚ)/5 ≤ kc.2.similarity.toQ)) ∧
    calculate_similarity [] [] = ⟨1, 1⟩ ∧
    (∀ s : List Char, s ≠ [] →
        calculate_similarity [] s = ⟨0, 1⟩ ∧ calculate_similarity s [] = ⟨0, 1⟩) ∧
    ((∀ kc ∈ compare_address_components ci extracted, kc.2.matched = true) →
        determine_mismatch_type (compare_address_components ci extracted) = none) ∧
    ((∀ kc ∈ compare_address_components ci extracted, kc.2.matched = false) →
        determine_mismatch_type (compare_address_components ci extracted)
          = some "full_mismatch") ∧
    ((∃ kc ∈ compare_address_components ci extracted, kc.2.matched = true) →
      (∃ kc ∈ compare_address_components ci extracted, kc.2.matched = false) →
        determine_mismatch_type (compare_address_components ci extracted)
          = some "partial_mismatch") ∧
    ((ci.street_address ≠ "" ∨ ci.city ≠ "" ∨ ci.state_province ≠ "" ∨
        ci.postal_code ≠ "") →
      determine_mismatch_type (compare_address_components ci extracted) = none →
      (compare_addresses (some ci) extracted u f fn db).1.has_mismatch = false ∧
      (compare_addresses (some ci) extracted u f fn db).2
        = db.filter (fun r => !keyMatches u f r)) := by
  refine ⟨?_, rfl, ?_, ?_, ?_, ?_, ?_⟩
  · intro kc hkc
    obtain ⟨k, hk, rfl⟩ := List.mem_map.mp hkc
    exact simRatio_atLeast_iff _ (calculate_similarity_den_pos _ _)
  · intro s hs
    cases s with
    | nil => exact absurd rfl hs
    | cons c cs => exact ⟨rfl, rfl⟩
  · intro hall
    unfold determine_mismatch_type
    rw [List.filter_eq_self.mpr hall]
    simp
  · intro hnone
    unfold determine_mismatch_type
    rw [List.filter_eq_nil_iff.mpr (fun kc hkc => by simp [hnone kc hkc])]
    have h4 : (compare_address_components ci extracted).length = 4 := by
      simp [compare_address_components, addressComponentKeys]
    rw [h4]
    simp
  · rintro ⟨kt, hkt, hkt2⟩ ⟨kf, hkf, hkf2⟩
    unfold determine_mismatch_type
    have hlt : ((compare_address_components ci extracted).filter
        (fun c => c.2.matched)).length < (compare_address_components ci extracted).length :=
      length_filter_lt_of_mem_not _ _ kf hkf hkf2
    have hpos : 0 < ((compare_address_components ci extracted).filter
        (fun c => c.2.matched)).length :=
      List.length_pos.mpr (List.ne_nil_of_mem (List.mem_filter.mpr ⟨hkt, hkt2⟩))
    rw [if_neg (by omega), if_neg (by omega)]
  · intro hOr hmt
    have hcond : (ci.street_address != "" || ci.city != "" || ci.state_province != "" ||
        ci.postal_code != "") = true := by
      rcases hOr with h | h | h | h <;> simp [h]
    unfold compare_addresses
    dsimp only
    rw [hcond]
    simp only [Bool.not_true, Bool.false_eq_true, if_false]
    rw [hmt]
    exact ⟨rfl, rfl⟩

/-- C5 witness: the spec's two scenarios — a street-abbreviation variant
matches everywhere (no mismatch, record cleared), and the concrete facts
for empty components. -/
theorem c5_witness :
    calculate_similarity [] [] = ⟨1, 1⟩ ∧
    calculate_similarity [] ['x'] = ⟨0, 1⟩ ∧
    (compare_addresses (some ⟨"12 Elm St", "Springfield", "IL", "62704"⟩)
        [("street_address", vStr "12 Elm Street"), ("city", vStr "Springfield"),
         ("state_province", vStr "IL"), ("postal_code", vStr "62704")]
        "client1" "file9" "doc.pdf" []).1.has_mismatch = false :=
  ⟨(c5_component_threshold_and_classification ⟨"", "", "", ""⟩ [] "u" "f" "g" []).2.1,
    ((c5_component_threshold_and_classification ⟨"", "", "", ""⟩ [] "u" "f" "g"
      []).2.2.1 ['x'] (by decide)).1,
    ((c5_component_threshold_and_classification ⟨"12 Elm St", "Springfield", "IL", "62704"⟩
        [("street_address", vStr "12 Elm Street"), ("city", vStr "Springfield"),
         ("state_province", vStr "IL"), ("postal_code", vStr "62704")]
        "client1" "file9" "doc.pdf" []).2.2.2.2.2.2 (by decide) (by decide)).1⟩

/-! ### C7 -/

/-- Modelled from the spec (§4.1): the exact pairs carried by a field list
in which every entry has both a key and a value. -/
def entriesPairs : List Value → Option (List (String × Value))
  | [] => some []
  | f :: rest =>
    match entryKeyValue f with
    | some p =>
      match entriesPairs rest with
      | some ps => some (p :: ps)
      | none => none
    | none => none

theorem pyLookup_eq_none (d : List (String × Value)) (k : String)
    (h : k ∉ d.map Prod.fst) : pyLookup d k = none := by
  induction d with
  | nil => rfl
  | cons p rest ih =>
    simp only [List.map_cons, List.mem_cons, not_or] at h
    rw [pyLookup, if_neg (fun he => h.1 he.symm)]
    exact ih h.2

theorem fieldsToDictAux_wellformed (entries : List Value) :
    ∀ (pairs acc : List (String × Value)),
    entriesPairs entries = some pairs →
    ((acc ++ pairs).map Prod.fst).Nodup →
    fieldsToDictAux acc entries = some (acc ++ pairs) := by
  induction entries with
  | nil =>
    intro pairs acc hm hnd
    simp only [entriesPairs] at hm
    rw [← Option.some.inj hm]
    simp [fieldsToDictAux]
  | cons f rest ih =>
    intro pairs acc hm hnd
    cases f with
    | vObj fk =>
      simp only [entriesPairs] at hm
      cases hkv : entryKeyValue (vObj fk) with
      | none => rw [hkv] at hm; cases hm
      | some p =>
        rw [hkv] at hm
        cases hps : entriesPairs rest with
        | none => rw [hps] at hm; cases hm
        | some ps =>
          rw [hps] at hm
          have hpairs := (Option.some.inj hm).symm
          subst hpairs
          simp only [entryKeyValue] at hkv
          cases hlk : pyLookup fk "key" with
          | none => rw [hlk] at hkv; cases hkv
          | some kval =>
            cases hlv : pyLookup fk "value" with
            | none =>
              rw [hlk, hlv] at hkv
              cases kval <;> cases hkv
            | some v =>
              rw [hlk, hlv] at hkv
              cases kval with
              | vStr k =>
                have hp := (Option.some.inj hkv).symm
                subst hp
                rw [fieldsToDictAux]
                rw [if_pos (by simp [pyHasKey, hlk, hlv]), hlk, hlv]
                have hknotin : k ∉ acc.map Prod.fst := by
                  intro hin
                  have := hnd
                  rw [List.map_append] at this
                  rcases List.nodup_append.mp this with ⟨-, -, hdisj⟩
                  exact hdisj hin (by simp)
                have hins : dictInsert acc k v = acc ++ [(k, v)] := by
                  rw [dictInsert, if_neg]
                  simp [pyHasKey, pyLookup_eq_none acc k hknotin]
                dsimp only
                rw [hins]
                have hnd2 : (((acc ++ [(k, v)]) ++ ps).map Prod.fst).Nodup := by
                  rw [List.append_assoc]
                  simpa using hnd
                have := ih ps (acc ++ [(k, v)]) hps hnd2
                rw [this, List.append_assoc]
                rfl
              | vNull => cases hkv
              | vBool b => cases hkv
              | vNum q => cases hkv
              | vList xs => cases hkv
              | vObj o => cases hkv
    | vNull => simp [entriesPairs, entryKeyValue] at hm
    | vBool b => simp [entriesPairs, entryKeyValue] at hm
    | vNum q => simp [entriesPairs, entryKeyValue] at hm
    | vStr s => simp [entriesPairs, entryKeyValue] at hm
    | vList xs => simp [entriesPairs, entryKeyValue] at hm

theorem fieldsToDictAux_no_values (entries : List Value)
    (h : ∀ f ∈ entries, ∃ fk, f = vObj fk ∧ pyHasKey fk "value" = false) :
    ∀ acc, fieldsToDictAux acc entries = some acc := by
  induction entries with
  | nil => intro acc; rfl
  | cons f rest ih =>
    intro acc
    obtain ⟨fk, rfl, hnv⟩ := h f (List.mem_cons_self f rest)
    rw [fieldsToDictAux, if_neg (by simp [hnv])]
    exact ih (fun g hg => h g (List.mem_cons_of_mem _ hg)) acc

/-- C7 counterexample: a field list in which every entry carries both a key
and a value — here the single entry `{"key": "a", "value": ""}` — is *not*
interpreted as VALUES with those pairs: the resulting all-empty mapping is
flagged by `_is_template_definition`, classified as a schema echo, and the
orchestrator discards it for the filename fallback. -/
theorem c7_counterexample :
    interpret 200 (vObj [("fields", vList [vObj [("key", vStr "a"), ("value", vStr "")]])])
      = (InterpKind.schemaEcho, vObj []) ∧
    interpret 200 (vObj [("fields", vList [vObj [("key", vStr "a"), ("value", vStr "")]])])
      ≠ (InterpKind.values, vObj [("a", vStr "")]) ∧
    extract_base_metadata (Except.ok ⟨"statement.pdf"⟩)
      (ProviderOutcome.response 200
        (vObj [("fields", vList [vObj [("key", vStr "a"), ("value", vStr "")]])]))
      = extract_base_metadata_fallback ⟨"statement.pdf"⟩ := by decide

/-- C7 amended: for a 200 response holding a field list, (i) if every entry
carries a string key and a value, the keys are distinct, and the resulting
mapping is not itself flagged as a template definition (some non-dict value
non-empty and no bookkeeping key), the interpreter yields VALUES with
exactly those key/value pairs; (ii) if every entry carries no `value` key
at all (the prompt-echo shape), the interpreter yields a schema echo with
an empty mapping and `extract_base_metadata` falls back to the filename
heuristic. -/
theorem c7_field_list_interpretation (kvs : List (String × Value))
    (entries : List Value) (pairs : List (String × Value)) (fi : FileInfo) :
    (pyLookup kvs "fields" = some (vList entries) →
      entriesPairs entries = some pairs →
      (pairs.map Prod.fst).Nodup →
      is_template_definition (vObj pairs) = false →
      interpret 200 (vObj kvs) = (InterpKind.values, vObj pairs)) ∧
    (pyLookup kvs "fields" = some (vList entries) →
      (∀ f ∈ entries, ∃ fk, f = vObj fk ∧ pyHasKey fk "value" = false) →
      interpret 200 (vObj kvs) = (InterpKind.schemaEcho, vObj []) ∧
      extract_base_metadata (Except.ok fi) (ProviderOutcome.response 200 (vObj kvs))
        = extract_base_metadata_fallback fi) := by
  constructor
  · intro hf hm hnd histd
    have hdict : fieldsToDictAux [] entries = some pairs := by
      have := fieldsToDictAux_wellformed entries pairs [] hm (by simpa using hnd)
      simpa using this
    unfold interpret extract_with_box_ai
    dsimp only
    rw [if_pos (show (200:Nat) = 200 ∨ (200:Nat) = 202 from Or.inl rfl)]
    unfold processBoxAiResponse
    dsimp only
    rw [hf]
    dsimp only
    rw [hdict]
    simp [histd]
  · intro hf hecho
    have hdict : fieldsToDictAux [] entries = some [] :=
      fieldsToDictAux_no_values entries hecho []
    have her : extract_with_box_ai (ProviderOutcome.response 200 (vObj kvs))
        = { success := true, message := "Metadata extraction completed successfully",
            data := vObj [] } := by
      unfold extract_with_box_ai
      dsimp only
      rw [if_pos (show (200:Nat) = 200 ∨ (200:Nat) = 202 from Or.inl rfl)]
      unfold processBoxAiResponse
      dsimp only
      rw [hf]
      dsimp only
      rw [hdict]
    constructor
    · unfold interpret
      rw [her]
      simp [is_template_definition]
    · unfold extract_base_metadata
      rw [her]
      simp [is_template_definition]

/-- C7 witness: the two branches at concrete field lists (a real value pair,
and the spec's prompt-echo scenario). -/
theorem c7_witness :
    interpret 200 (vObj [("fields",
        vList [vObj [("key", vStr "documentType"), ("value", vStr "W-2")]])])
      = (InterpKind.values, vObj [("documentType", vStr "W-2")]) ∧
    interpret 200 (vObj [("fields",
        vList [vObj [("key", vStr "documentType"), ("prompt", vStr "The type"),
          ("type", vStr "enum")]])])
      = (InterpKind.schemaEcho, vObj []) ∧
    extract_base_metadata (Except.ok ⟨"Mortgage March.pdf"⟩)
      (ProviderOutcome.response 200 (vObj [("fields",
        vList [vObj [("key", vStr "documentType"), ("prompt", vStr "The type"),
          ("type", vStr "enum")]])]))
      = extract_base_metadata_fallback ⟨"Mortgage March.pdf"⟩ := by
  refine ⟨?_, ?_, ?_⟩
  · exact (c7_field_list_interpretation
      [("fields", vList [vObj [("key", vStr "documentType"), ("value", vStr "W-2")]])]
      [vObj [("key", vStr "documentType"), ("value", vStr "W-2")]]
      [("documentType", vStr "W-2")] ⟨"x"⟩).1
      (by decide) (by decide) (by decide) (by decide)
  · exact ((c7_field_list_interpretation
      [("fields", vList [vObj [("key", vStr "documentType"), ("prompt", vStr "The type"),
        ("type", vStr "enum")]])]
      [vObj [("key", vStr "documentType"), ("prompt", vStr "The type"),
        ("type", vStr "enum")]] [] ⟨"Mortgage March.pdf"⟩).2
      (by decide)
      (by
        intro f hf
        simp only [List.mem_singleton] at hf
        subst hf
        exact ⟨_, rfl, by decide⟩)).1
  · exact ((c7_field_list_interpretation
      [("fields", vList [vObj [("key", vStr "documentType"), ("prompt", vStr "The type"),
        ("type", vStr "enum")]])]
      [vObj [("key", vStr "documentType"), ("prompt", vStr "The type"),
        ("type", vStr "enum")]] [] ⟨"Mortgage March.pdf"⟩).2
      (by decide)
      (by
        intro f hf
        simp only [List.mem_singleton] at hf
        subst hf
        exact ⟨_, rfl, by decide⟩)).2

/-! ### C8 -/

/-- C8: a response whose shape the application-side interpreter does not
recognise reduces to an empty field mapping and raises no exception: every
non-dict input yields the empty mapping, and a dict that is not a direct
key/value object (it carries a response-wrapper key), has no dict `data`,
no `ai_agent_info`, no fields list, no legacy `metadata` key, and nothing
surviving the best-effort key filter, also yields the empty mapping
(`some`, i.e. no exception escapes). -/
theorem c8_unrecognized_reduces_empty (v : Value) (kvs : List (String × Value)) :
    ((∀ w, v ≠ vObj w) → extract_metadata_values v = some (vObj [])) ∧
    (bookkeepingKeys.any (fun k => pyHasKey kvs k) = true →
      (∀ d, pyLookup kvs "data" ≠ some (vObj d)) →
      pyHasKey kvs "ai_agent_info" = false →
      (∀ fs, pyLookup kvs "fields" ≠ some (vList fs)) →
      pyHasKey kvs "metadata" = false →
      emvCleanedFilter kvs = [] →
      extract_metadata_values (vObj kvs) = some (vObj [])) := by
  constructor
  · intro hw
    cases v with
    | vObj w => exact absurd rfl (hw w)
    | vNull => rfl
    | vBool b => rfl
    | vNum q => rfl
    | vStr s => rfl
    | vList xs => rfl
  · intro hbk hdata hai hfields hmeta hclean
    have hmetaNone : pyLookup kvs "metadata" = none := by
      cases hl : pyLookup kvs "metadata" with
      | none => rfl
      | some m =>
        rw [pyHasKey, hl] at hmeta
        cases hmeta
    unfold extract_metadata_values
    dsimp only
    rw [hbk]
    simp only [Bool.not_true, Bool.false_eq_true, if_false]
    cases hd : pyLookup kvs "data" with
    | some dval =>
      cases dval with
      | vObj dkvs => exact absurd hd (hdata dkvs)
      | vNull =>
        rw [hai]
        simp only [Bool.false_eq_true, if_false]
        cases hfs : pyLookup kvs "fields" with
        | some fsval =>
          cases fsval with
          | vList fs => exact absurd hfs (hfields fs)
          | vNull => rw [hmetaNone]; simp [hclean]
          | vBool b => rw [hmetaNone]; simp [hclean]
          | vNum q => rw [hmetaNone]; simp [hclean]
          | vStr s => rw [hmetaNone]; simp [hclean]
          | vObj o => rw [hmetaNone]; simp [hclean]
        | none => rw [hmetaNone]; simp [hclean]
      | vBool b =>
        rw [hai]
        simp only [Bool.false_eq_true, if_false]
        cases hfs : pyLookup kvs "fields" with
        | some fsval =>
          cases fsval with
          | vList fs => exact absurd hfs (hfields fs)
          | vNull => rw [hmetaNone]; simp [hclean]
          | vBool b2 => rw [hmetaNone]; simp [hclean]
          | vNum q => rw [hmetaNone]; simp [hclean]
          | vStr s => rw [hmetaNone]; simp [hclean]
          | vObj o => rw [hmetaNone]; simp [hclean]
        | none => rw [hmetaNone]; simp [hclean]
      | vNum q =>
        rw [hai]
        simp only [Bool.false_eq_true, if_false]
        cases hfs : pyLookup kvs "fields" with
        | some fsval =>
          cases fsval with
          | vList fs => exact absurd hfs (hfields fs)
          | vNull => rw [hmetaNone]; simp [hclean]
          | vBool b => rw [hmetaNone]; simp [hclean]
          | vNum q2 => rw [hmetaNone]; simp [hclean]
          | vStr s => rw [hmetaNone]; simp [hclean]
          | vObj o => rw [hmetaNone]; simp [hclean]
        | none => rw [hmetaNone]; simp [hclean]
      | vStr s =>
        rw [hai]
        simp only [Bool.false_eq_true, if_false]
        cases hfs : pyLookup kvs "fields" with
        | some fsval =>
          cases fsval with
          | vList fs => exact absurd hfs (hfields fs)
          | vNull => rw [hmetaNone]; simp [hclean]
          | vBool b => rw [hmetaNone]; simp [hclean]
          | vNum q => rw [hmetaNone]; simp [hclean]
          | vStr s2 => rw [hmetaNone]; simp [hclean]
          | vObj o => rw [hmetaNone]; simp [hclean]
        | none => rw [hmetaNone]; simp [hclean]
      | vList xs =>
        rw [hai]
        simp only [Bool.false_eq_true, if_false]
        cases hfs : pyLookup kvs "fields" with
        | some fsval =>
          cases fsval with
          | vList fs => exact absurd hfs (hfields fs)
          | vNull => rw [hmetaNone]; simp [hclean]
          | vBool b => rw [hmetaNone]; simp [hclean]
          | vNum q => rw [hmetaNone]; simp [hclean]
          | vStr s => rw [hmetaNone]; simp [hclean]
          | vObj o => rw [hmetaNone]; simp [hclean]
        | none => rw [hmetaNone]; simp [hclean]
    | none =>
      rw [hai]
      simp only [Bool.false_eq_true, if_false]
      cases hfs : pyLookup kvs "fields" with
      | some fsval =>
        cases fsval with
        | vList fs => exact absurd hfs (hfields fs)
        | vNull => rw [hmetaNone]; simp [hclean]
        | vBool b => rw [hmetaNone]; simp [hclean]
        | vNum q => rw [hmetaNone]; simp [hclean]
        | vStr s => rw [hmetaNone]; simp [hclean]
        | vObj o => rw [hmetaNone]; simp [hclean]
      | none => rw [hmetaNone]; simp [hclean]

/-- C8 witness: a plain-string response and a wrapper dict with only
bookkeeping keys both reduce to the empty mapping without raising. -/
theorem c8_witness :
    extract_metadata_values (vStr "plain text response") = some (vObj []) ∧
    extract_metadata_values (vObj [("success", vBool true), ("$template", vStr "x")])
      = some (vObj []) :=
  ⟨(c8_unrecognized_reduces_empty (vStr "plain text response") []).1
      (fun w h => Value.noConfusion h),
    (c8_unrecognized_reduces_empty vNull
        [("success", vBool true), ("$template", vStr "x")]).2
      (by decide)
      (by
        intro d h
        rw [show pyLookup [("success", vBool true), ("$template", vStr "x")] "data" = none
          by decide] at h
        cases h)
      (by decide)
      (by
        intro fs h
        rw [show pyLookup [("success", vBool true), ("$template", vStr "x")] "fields" = none
          by decide] at h
        cases h)
      (by decide) (by decide)⟩

/-! ### C9 -/

/-- C9: the post-base stage flow of the single-document pipeline executes
the same stages whatever the determined document type is; with no
determinable type the type-specific stages are skipped and reported as
success (never as failures), and the flow still proceeds to address
extraction, then (on extraction success) address application, then (on
application success with data present) address comparison. -/
theorem c9_undeterminable_type_routes_to_address (dt : Option String)
    (attach : Except String Unit) (ext : ExtractResult) (app : StageResult) :
    (process_document_metadata_tail dt attach ext app).trace
      = (process_document_metadata_tail none attach ext app).trace ∧
    (process_document_metadata_tail none attach ext app).document_type_result.success
      = true ∧
    (process_document_metadata_tail none attach ext app).trace.typeExtractionPerformed
      = false ∧
    (process_document_metadata_tail none attach ext app).trace.typeApplicationPerformed
      = false ∧
    (attach = Except.ok () →
      (process_document_metadata_tail none attach ext
        app).trace.addressExtractionPerformed = true) ∧
    (attach = Except.ok () → ext.success = true →
      (process_document_metadata_tail none attach ext
        app).trace.addressApplicationPerformed = true) ∧
    (attach = Except.ok () → ext.success = true → app.success = true →
      pyTruthy ext.data = true →
      (process_document_metadata_tail none attach ext
        app).trace.addressComparisonPerformed = true) := by
  cases attach with
  | error e =>
    refine ⟨rfl, rfl, rfl, rfl, ?_, ?_, ?_⟩ <;> intro h <;> cases h
  | ok u =>
    cases u
    unfold process_document_metadata_tail
    by_cases he : ext.success
    · by_cases ha : app.success
      · simp [he, ha]
      · simp [he, ha]
    · simp [he]

/-- C9 witness: the concrete flow with no determinable type, a successful
attach, a successful address extraction with data, and a successful
application runs extraction, application and comparison. -/
theorem c9_witness :
    (process_document_metadata_tail none (Except.ok ())
        { success := true, message := "ok",
          data := vObj [("street_address", vStr "12 Elm St")] }
        { success := true, message := "applied" }).document_type_result.success = true ∧
    (process_document_metadata_tail none (Except.ok ())
        { success := true, message := "ok",
          data := vObj [("street_address", vStr "12 Elm St")] }
        { success := true, message := "applied" }).trace.addressExtractionPerformed
      = true ∧
    (process_document_metadata_tail none (Except.ok ())
        { success := true, message := "ok",
          data := vObj [("street_address", vStr "12 Elm St")] }
        { success := true, message := "applied" }).trace.addressApplicationPerformed
      = true ∧
    (process_document_metadata_tail none (Except.ok ())
        { success := true, message := "ok",
          data := vObj [("street_address", vStr "12 Elm St")] }
        { success := true, message := "applied" }).trace.addressComparisonPerformed
      = true :=
  ⟨(c9_undeterminable_type_routes_to_address none (Except.ok ())
      { success := true, message := "ok",
        data := vObj [("street_address", vStr "12 Elm St")] }
      { success := true, message := "applied" }).2.1,
    (c9_undeterminable_type_routes_to_address none (Except.ok ())
      { success := true, message := "ok",
        data := vObj [("street_address", vStr "12 Elm St")] }
      { success := true, message := "applied" }).2.2.2.2.1 rfl,
    (c9_undeterminable_type_routes_to_address none (Except.ok ())
      { success := true, message := "ok",
        data := vObj [("street_address", vStr "12 Elm St")] }
      { success := true, message := "applied" }).2.2.2.2.2.1 rfl rfl,
    (c9_undeterminable_type_routes_to_address none (Except.ok ())
      { success := true, message := "ok",
        data := vObj [("street_address", vStr "12 Elm St")] }
      { success := true, message := "applied" }).2.2.2.2.2.2 rfl rfl rfl (by decide)⟩

/-! ### C10 -/

/-- C10: the document-type-to-template-key mapping is total — for every
input string the returned key is non-empty, unmapped types yield
`otherDocument` — so the `'No template for …'` failure branch of
`extract_document_type_metadata` is unreachable for every provider
behaviour. -/
theorem c10_template_key_total (dt : String) (p : ProviderOutcome) :
    get_template_key_for_document_type dt ≠ "" ∧
    (documentTypeTemplateMap.lookup dt = none →
      get_template_key_for_document_type dt = "otherDocument") ∧
    (extract_document_type_metadata dt p).2 = false := by
  have hsome : ∀ tk, documentTypeTemplateMap.lookup dt = some tk → tk ≠ "" := by
    intro tk hl
    unfold documentTypeTemplateMap at hl
    simp only [List.lookup] at hl
    repeat' split at hl
    all_goals first
      | (rw [← Option.some.inj hl]; decide)
      | exact Option.noConfusion hl
  have h1 : get_template_key_for_document_type dt ≠ "" := by
    unfold get_template_key_for_document_type
    cases hl : documentTypeTemplateMap.lookup dt with
    | none => decide
    | some tk => exact hsome tk hl
  refine ⟨h1, ?_, ?_⟩
  · intro hl
    unfold get_template_key_for_document_type
    rw [hl]
  · unfold extract_document_type_metadata
    rw [if_neg h1]
    dsimp only
    split <;> rfl

/-- C10 witness: an unmapped type resolves to `otherDocument` and never
takes the no-template failure branch. -/
theorem c10_witness :
    documentTypeTemplateMap.lookup "Recipe" = none ∧
    get_template_key_for_document_type "Recipe" = "otherDocument" ∧
    (extract_document_type_metadata "Recipe" (ProviderOutcome.exc "down")).2 = false :=
  ⟨by decide,
    (c10_template_key_total "Recipe" (ProviderOutcome.exc "down")).2.1 (by decide),
    (c10_template_key_total "Recipe" (ProviderOutcome.exc "down")).2.2⟩

end BoxWealth
